import Mathlib

/-!
Verification of the Zotebook input core (touch state machine, gesture
recognizer, stroke processor, corner detector, stroke-to-geometry
converter) against its natural-language specification.

The TypeScript sources are shallowly embedded: JavaScript numbers are
modelled as real numbers, class state as explicit records, mutation as
state-passing, thrown errors as `Except`, and handler callbacks as
emitted notification lists.  `Vec2.divide`, which throws on a zero
scalar in the source, is modelled with Lean's total real division; every
call site in the embedded code guards the divisor, so the two agree on
all executed paths.
-/

set_option maxHeartbeats 1000000

namespace Zotebook

open Classical

/-- JavaScript Math.atan2, modelled with Real.arctan by quadrant. -/
noncomputable def atan2 (y x : ℝ) : ℝ :=
  if 0 < x then Real.arctan (y / x)
  else if x < 0 ∧ 0 ≤ y then Real.arctan (y / x) + Real.pi
  else if x < 0 ∧ y < 0 then Real.arctan (y / x) - Real.pi
  else if x = 0 ∧ 0 < y then Real.pi / 2
  else if x = 0 ∧ y < 0 then -(Real.pi / 2)
  else 0

/-- JavaScript Math.sign. -/
noncomputable def jsSign (x : ℝ) : ℝ :=
  if 0 < x then 1 else if x < 0 then -1 else 0

/-- Math.max over a spread non-empty array (Math.max(...xs)). -/
noncomputable def listMax : List ℝ → ℝ
  | [] => 0
  | x :: rest => rest.foldl max x

/-- Ascending numeric sort, as in JavaScript `arr.sort((a,b) => a-b)`. -/
noncomputable def insertSorted (x : ℝ) : List ℝ → List ℝ
  | [] => [x]
  | y :: rest => if x ≤ y then x :: y :: rest else y :: insertSorted x rest

/-- Ascending numeric sort of a real list. -/
noncomputable def sortAsc (xs : List ℝ) : List ℝ := xs.foldl (fun acc x => insertSorted x acc) []

/-- Ascending sort of nat indices, as in `corners.sort((a,b) => a-b)`. -/
def insertSortedNat (x : ℕ) : List ℕ → List ℕ
  | [] => [x]
  | y :: rest => if x ≤ y then x :: y :: rest else y :: insertSortedNat x rest

/-- Ascending sort of a nat list. -/
def sortAscNat (xs : List ℕ) : List ℕ := xs.foldl (fun acc x => insertSortedNat x acc) []

/-- Helper for dedupFirst: skip elements already seen. -/
def dedupFirstAux (seen : List ℕ) : List ℕ → List ℕ
  | [] => []
  | x :: rest =>
    if x ∈ seen then dedupFirstAux seen rest
    else x :: dedupFirstAux (x :: seen) rest

/-- JS `[...new Set(xs)]`: deduplicate keeping first occurrences, in order. -/
def dedupFirst (xs : List ℕ) : List ℕ := dedupFirstAux [] xs

namespace Vec2

/-- src/core/math/vec2.ts: immutable 2D vector (JS numbers as reals). -/
structure V where
  x : ℝ
  y : ℝ

/-- Vec2.ZERO. -/
def zero : V := ⟨0, 0⟩

/-- Vec2.add. -/
def add (a b : V) : V := ⟨a.x + b.x, a.y + b.y⟩

/-- Vec2.subtract. -/
def subtract (a b : V) : V := ⟨a.x - b.x, a.y - b.y⟩

/-- Vec2.multiply (scalar). -/
def multiply (a : V) (s : ℝ) : V := ⟨a.x * s, a.y * s⟩

/-- Vec2.divide (scalar). The source throws on s = 0; every embedded call
site guards the divisor, and Lean's x / 0 = 0 fills the unreached case. -/
noncomputable def divide (a : V) (s : ℝ) : V := ⟨a.x / s, a.y / s⟩

/-- Vec2.negate. -/
def negate (a : V) : V := ⟨-a.x, -a.y⟩

/-- Vec2.lengthSquared. -/
def lengthSquared (a : V) : ℝ := a.x * a.x + a.y * a.y

/-- Vec2.length. -/
noncomputable def length (a : V) : ℝ := Real.sqrt (lengthSquared a)

/-- Vec2.normalized (ZERO for the zero vector, as in the source). -/
noncomputable def normalized (a : V) : V :=
  if length a = 0 then zero else ⟨a.x / length a, a.y / length a⟩

/-- Vec2.dot. -/
def dot (a b : V) : ℝ := a.x * b.x + a.y * b.y

/-- Vec2.cross. -/
def cross (a b : V) : ℝ := a.x * b.y - a.y * b.x

/-- Vec2.distanceTo. -/
noncomputable def distanceTo (a b : V) : ℝ := length (subtract a b)

/-- Vec2.distanceToSquared. -/
def distanceToSquared (a b : V) : ℝ := lengthSquared (subtract a b)

/-- Vec2.angleTo (signed angle via atan2 of det and dot). -/
noncomputable def angleTo (a b : V) : ℝ := atan2 (cross a b) (dot a b)

/-- Vec2.lerp. -/
def lerp (a b : V) (t : ℝ) : V := ⟨a.x + (b.x - a.x) * t, a.y + (b.y - a.y) * t⟩

/-- Vec2.perpendicular. -/
def perpendicular (a : V) : V := ⟨-a.y, a.x⟩

/-- Vec2.fromPolar. -/
noncomputable def fromPolar (len angle : ℝ) : V := ⟨len * Real.cos angle, len * Real.sin angle⟩

end Vec2

open Vec2 (V)

/-- src/core/math/mat3.ts: immutable 3x3 matrix for 2D transforms in
homogeneous coordinates (column-major entries m00..m22). -/
structure Mat3 where
  m00 : ℝ
  m01 : ℝ
  m02 : ℝ
  m10 : ℝ
  m11 : ℝ
  m12 : ℝ
  m20 : ℝ
  m21 : ℝ
  m22 : ℝ

/-- Mat3.IDENTITY. -/
def Mat3.IDENTITY : Mat3 := ⟨1, 0, 0, 0, 1, 0, 0, 0, 1⟩

/-- Mat3.transformPoint (homogeneous transform with perspective divide). -/
noncomputable def Mat3.transformPoint (m : Mat3) (point : V) : V :=
  let w := m.m02 * point.x + m.m12 * point.y + m.m22
  ⟨(m.m00 * point.x + m.m10 * point.y + m.m20) / w,
   (m.m01 * point.x + m.m11 * point.y + m.m21) / w⟩

/-- src/core/math/pt.ts (in src/unnamed/part_000): CoordinateSystem. -/
inductive CoordinateSystem
  | SCREEN
  | VIEWPORT
  | WORLD
deriving DecidableEq, Repr

/-- CoordinateTransforms: the four conversion matrices shared by points. -/
structure CoordinateTransforms where
  screenToViewport : Mat3
  viewportToWorld : Mat3
  worldToViewport : Mat3
  viewportToScreen : Mat3

/-- src/core/math/pt.ts: the multi-coordinate point Pt.  World
coordinates are the canonical storage; the optional screen/viewport
fields hold the constructor-cached input coordinates (the getters'
lazy caches are value-transparent on immutable fields and need no
extra state). -/
structure Pt where
  worldCoordinates : V
  screenCoordinates : Option V
  viewportCoordinates : Option V
  transforms : CoordinateTransforms

/-- The Pt constructor: convert the input to canonical world coordinates
and cache the input in its own system, as the source switch does. -/
noncomputable def Pt.make (coordinates : V) (system : CoordinateSystem)
    (transforms : CoordinateTransforms) : Pt :=
  match system with
  | .WORLD =>
    { worldCoordinates := coordinates, screenCoordinates := none,
      viewportCoordinates := none, transforms := transforms }
  | .VIEWPORT =>
    { worldCoordinates := transforms.viewportToWorld.transformPoint coordinates,
      screenCoordinates := none, viewportCoordinates := some coordinates,
      transforms := transforms }
  | .SCREEN =>
    let viewport := transforms.screenToViewport.transformPoint coordinates
    { worldCoordinates := transforms.viewportToWorld.transformPoint viewport,
      screenCoordinates := some coordinates, viewportCoordinates := none,
      transforms := transforms }

/-- Pt.world (canonical storage). -/
def Pt.world (p : Pt) : V := p.worldCoordinates

/-- Pt.viewport (constructor-cached input, else derived from world). -/
noncomputable def Pt.viewport (p : Pt) : V :=
  match p.viewportCoordinates with
  | some v => v
  | none => p.transforms.worldToViewport.transformPoint p.worldCoordinates

/-- Pt.screen (constructor-cached input, else derived from viewport). -/
noncomputable def Pt.screen (p : Pt) : V :=
  match p.screenCoordinates with
  | some v => v
  | none => p.transforms.viewportToScreen.transformPoint p.viewport

/-- Pt.inSystem. -/
noncomputable def Pt.inSystem (p : Pt) : CoordinateSystem → V
  | .WORLD => p.world
  | .VIEWPORT => p.viewport
  | .SCREEN => p.screen

/-- Pt.lerp: interpolate in the requested system and rebuild through the
constructor with this point's transforms.  The source's system argument
defaults to WORLD; call sites here pass it explicitly. -/
noncomputable def Pt.lerp (a b : Pt) (t : ℝ) (system : CoordinateSystem) : Pt :=
  Pt.make (Vec2.lerp (a.inSystem system) (b.inSystem system) t) system a.transforms

namespace PointerEvents

/-- src/input/pointer-events.ts: PointerState (the platform fields used by
the input core; pointer ids are JS numbers, modelled as naturals). -/
structure PointerState where
  id : ℕ
  position : V
  pressure : ℝ
  tiltX : ℝ
  tiltY : ℝ
  timestamp : ℝ
  isPrimary : Bool

/-- PointerUtils.calculateCentroid. -/
noncomputable def calculateCentroid (pointers : List PointerState) : V :=
  if pointers.length = 0 then Vec2.zero
  else
    let sum := pointers.foldl (fun acc p => Vec2.add acc p.position) Vec2.zero
    Vec2.divide sum (pointers.length : ℝ)

/-- PointerUtils.calculateSpread. -/
noncomputable def calculateSpread (pointers : List PointerState) : ℝ :=
  if pointers.length < 2 then 0
  else
    let centroid := calculateCentroid pointers
    let total := pointers.foldl (fun acc p => acc + Vec2.distanceTo p.position centroid) 0
    total / (pointers.length : ℝ)

end PointerEvents

open PointerEvents (PointerState)

namespace TouchState

/-- src/input/touch-state.ts: TouchMode. -/
inductive TouchMode
  | IDLE
  | DRAWING
  | PAN_ZOOM
  | UNDO
  | MULTI_TOUCH
deriving DecidableEq, Repr

/-- GestureState. -/
inductive GestureState
  | NONE
  | POSSIBLE
  | BEGAN
  | CHANGED
  | ENDED
  | CANCELLED
  | FAILED
deriving DecidableEq, Repr

/-- The mode-specific `data` payloads of DrawingGesture, PanZoomGesture and
UndoGesture, as a tagged variant (the source uses `any`-typed payloads
discriminated by the gesture type). -/
inductive GestureData
  | drawing (startPosition currentPosition : V) (totalDistance : ℝ)
      (velocity : V) (strokePoints : List V)
  | panZoom (initialCentroid : V) (initialSpread : ℝ) (currentCentroid : V)
      (currentSpread : ℝ) (panDelta : V) (zoomFactor rotationValue : ℝ)
  | undoData (triggerPosition : V) (confirmationTime : ℝ)
  | other

/-- TouchGesture (common fields plus the tagged payload). -/
structure TouchGesture where
  type : TouchMode
  state : GestureState
  startTime : ℝ
  duration : ℝ
  pointerCount : ℕ
  primaryPointer : Option PointerState
  centroid : V
  data : GestureData

/-- The five TouchStateEventHandlers callbacks, reified as notifications
emitted by each pointer-event handler. -/
inductive Notification
  | touchModeChanged (previousMode currentMode : TouchMode)
  | gestureStarted (g : TouchGesture)
  | gestureUpdated (g : TouchGesture)
  | gestureEnded (g : TouchGesture)
  | gestureCancelled (g : TouchGesture)

/-- True exactly on onTouchModeChanged notifications. -/
def Notification.isModeChanged : Notification → Bool
  | .touchModeChanged _ _ => true
  | _ => false

/-- JS Map.set: update in place when the key exists, else append. -/
def mapSet (m : List (ℕ × PointerState)) (k : ℕ) (v : PointerState) :
    List (ℕ × PointerState) :=
  match m with
  | [] => [(k, v)]
  | (k', v') :: rest => if k = k' then (k, v) :: rest else (k', v') :: mapSet rest k v

/-- JS Map.get. -/
def mapGet (m : List (ℕ × PointerState)) (k : ℕ) : Option PointerState :=
  match m with
  | [] => none
  | (k', v') :: rest => if k = k' then some v' else mapGet rest k

/-- JS Map.delete. -/
def mapDelete (m : List (ℕ × PointerState)) (k : ℕ) : List (ℕ × PointerState) :=
  match m with
  | [] => []
  | (k', v') :: rest => if k = k' then rest else (k', v') :: mapDelete rest k

/-- JS Map.values() in insertion order. -/
def mapValues (m : List (ℕ × PointerState)) : List PointerState := m.map Prod.snd

/-- The mutable fields of TouchStateManager. -/
structure Manager where
  currentMode : TouchMode
  currentGesture : Option TouchGesture
  activePointers : List (ℕ × PointerState)
  gestureHistory : List TouchGesture
  lastUpdateTime : ℝ

/-- TouchStateManager gesture-detection constant UNDO_HOLD_TIME (ms). -/
def UNDO_HOLD_TIME : ℝ := 500

/-- TouchStateManager constant MAX_GESTURE_HISTORY. -/
def MAX_GESTURE_HISTORY : ℕ := 50

/-- Initial TouchStateManager state. -/
def Manager.init : Manager :=
  { currentMode := .IDLE, currentGesture := none, activePointers := [],
    gestureHistory := [], lastUpdateTime := 0 }

/-- TouchStateManager.determineTouchMode. -/
def determineTouchMode (s : Manager) : TouchMode :=
  match s.activePointers.length with
  | 0 => .IDLE
  | 1 => .DRAWING
  | 2 => .PAN_ZOOM
  | 3 => .UNDO
  | _ => .MULTI_TOUCH

/-- TouchStateManager.getPrimaryPointer. -/
def getPrimaryPointer (s : Manager) : Option PointerState :=
  match (mapValues s.activePointers).find? (fun p => p.isPrimary) with
  | some p => some p
  | none => (mapValues s.activePointers).head?

/-- TouchStateManager.calculateCentroid. -/
noncomputable def calculateCentroid (s : Manager) : V :=
  PointerEvents.calculateCentroid (mapValues s.activePointers)

/-- TouchStateManager.addToHistory (push, then shift past the cap). -/
def addToHistory (hist : List TouchGesture) (g : TouchGesture) : List TouchGesture :=
  let h := hist ++ [g]
  if MAX_GESTURE_HISTORY < h.length then h.drop 1 else h

/-- TouchStateManager.endCurrentGesture. -/
def endCurrentGesture (s : Manager) : Manager × List Notification :=
  match s.currentGesture with
  | none => (s, [])
  | some g =>
    let ended : TouchGesture :=
      { g with state := .ENDED, duration := s.lastUpdateTime - g.startTime }
    ({ s with gestureHistory := addToHistory s.gestureHistory ended,
              currentGesture := none },
     [.gestureEnded ended])

/-- TouchStateManager.cancelCurrentGesture (notifies, no history entry). -/
def cancelCurrentGesture (s : Manager) : Manager × List Notification :=
  match s.currentGesture with
  | none => (s, [])
  | some g =>
    let cancelled : TouchGesture :=
      { g with state := .CANCELLED, duration := s.lastUpdateTime - g.startTime }
    ({ s with currentGesture := none }, [.gestureCancelled cancelled])

/-- TouchStateManager.createDrawingGesture. -/
def createDrawingGesture (base : TouchGesture) (pointer : PointerState) : TouchGesture :=
  { base with
      type := .DRAWING,
      data := .drawing pointer.position pointer.position 0 Vec2.zero [pointer.position] }

/-- TouchStateManager.createPanZoomGesture. -/
noncomputable def createPanZoomGesture (base : TouchGesture) (s : Manager) : TouchGesture :=
  let pointers := mapValues s.activePointers
  let centroid := PointerEvents.calculateCentroid pointers
  let spread := PointerEvents.calculateSpread pointers
  { base with
      type := .PAN_ZOOM,
      data := .panZoom centroid spread centroid spread Vec2.zero 1 0 }

/-- TouchStateManager.createUndoGesture. -/
def createUndoGesture (base : TouchGesture) (pointer : PointerState) : TouchGesture :=
  { base with
      type := .UNDO,
      data := .undoData pointer.position (pointer.timestamp + UNDO_HOLD_TIME) }

/-- TouchStateManager.startGesture. -/
noncomputable def startGesture (mode : TouchMode) (triggerPointer : PointerState)
    (s : Manager) : Manager × List Notification :=
  let base : TouchGesture :=
    { type := mode, state := .BEGAN, startTime := triggerPointer.timestamp,
      duration := 0, pointerCount := s.activePointers.length,
      primaryPointer := getPrimaryPointer s, centroid := calculateCentroid s,
      data := .other }
  let g :=
    match mode with
    | .DRAWING => createDrawingGesture base triggerPointer
    | .PAN_ZOOM => createPanZoomGesture base s
    | .UNDO => createUndoGesture base triggerPointer
    | _ => base
  ({ s with currentGesture := some g }, [.gestureStarted g])

/-- TouchStateManager.transitionToMode. -/
noncomputable def transitionToMode (newMode : TouchMode) (triggerPointer : PointerState)
    (s : Manager) : Manager × List Notification :=
  let previousMode := s.currentMode
  let e1 :=
    if s.currentGesture.isSome ∧ newMode ≠ previousMode then endCurrentGesture s
    else (s, [])
  let s2 := { e1.1 with currentMode := newMode }
  let e2 :=
    if newMode ≠ .IDLE then startGesture newMode triggerPointer s2 else (s2, [])
  (e2.1, e1.2 ++ e2.2 ++ [.touchModeChanged previousMode newMode])

/-- TouchStateManager.updateDrawingGesture. -/
noncomputable def updateDrawingGesture (g : TouchGesture) (pointer : PointerState) :
    TouchGesture :=
  match g.data with
  | .drawing startPosition currentPosition totalDistance velocity strokePoints =>
    let distance := Vec2.distanceTo currentPosition pointer.position
    let newTotal := totalDistance + distance
    let newVelocity :=
      if 0 < g.duration then
        let timeDelta := (pointer.timestamp - g.startTime) / 1000
        Vec2.divide (Vec2.subtract pointer.position startPosition) timeDelta
      else velocity
    let newStrokePoints :=
      if 1 < distance then strokePoints ++ [pointer.position] else strokePoints
    { g with data := (GestureData.drawing startPosition pointer.position newTotal
                       newVelocity newStrokePoints) }
  | _ => g

/-- TouchStateManager.updatePanZoomGesture (rotation stays 0 in the source). -/
noncomputable def updatePanZoomGesture (g : TouchGesture) (s : Manager) : TouchGesture :=
  match g.data with
  | .panZoom initialCentroid initialSpread _ _ _ _ _ =>
    let pointers := mapValues s.activePointers
    let currentCentroid := PointerEvents.calculateCentroid pointers
    let currentSpread := PointerEvents.calculateSpread pointers
    let panDelta := Vec2.subtract currentCentroid initialCentroid
    let zoomFactor := if 0 < initialSpread then currentSpread / initialSpread else 1
    { g with data := (GestureData.panZoom initialCentroid initialSpread currentCentroid
                       currentSpread panDelta zoomFactor 0) }
  | _ => g

/-- TouchStateManager.updateUndoGesture (payload unchanged by the source). -/
def updateUndoGesture (g : TouchGesture) : TouchGesture := g

/-- TouchStateManager.updateCurrentGesture. -/
noncomputable def updateCurrentGesture (updatedPointer : PointerState) (s : Manager) :
    Manager × List Notification :=
  match s.currentGesture with
  | none => (s, [])
  | some g =>
    let now := updatedPointer.timestamp
    let base : TouchGesture :=
      { g with state := .CHANGED, duration := now - g.startTime,
               pointerCount := s.activePointers.length,
               primaryPointer := getPrimaryPointer s,
               centroid := calculateCentroid s }
    let updated :=
      match g.type with
      | .DRAWING => updateDrawingGesture base updatedPointer
      | .PAN_ZOOM => updatePanZoomGesture base s
      | .UNDO => updateUndoGesture base
      | _ => base
    ({ s with currentGesture := some updated }, [.gestureUpdated updated])

/-- TouchStateManager.handlePointerDown. -/
noncomputable def handlePointerDown (pointer : PointerState) (s : Manager) :
    Manager × List Notification :=
  let s1 := { s with activePointers := mapSet s.activePointers pointer.id pointer,
                     lastUpdateTime := pointer.timestamp }
  let newMode := determineTouchMode s1
  if newMode ≠ s1.currentMode then transitionToMode newMode pointer s1
  else updateCurrentGesture pointer s1

/-- TouchStateManager.handlePointerMove (early return on untracked ids). -/
noncomputable def handlePointerMove (pointer : PointerState) (s : Manager) :
    Manager × List Notification :=
  match mapGet s.activePointers pointer.id with
  | none => (s, [])
  | some _ =>
    let s1 := { s with activePointers := mapSet s.activePointers pointer.id pointer,
                       lastUpdateTime := pointer.timestamp }
    updateCurrentGesture pointer s1

/-- TouchStateManager.handlePointerUp. -/
noncomputable def handlePointerUp (pointer : PointerState) (s : Manager) :
    Manager × List Notification :=
  let s1 := { s with activePointers := mapDelete s.activePointers pointer.id,
                     lastUpdateTime := pointer.timestamp }
  let newMode := determineTouchMode s1
  if newMode ≠ s1.currentMode then
    let e1 := endCurrentGesture s1
    let e2 := transitionToMode newMode pointer e1.1
    (e2.1, e1.2 ++ e2.2)
  else updateCurrentGesture pointer s1

/-- TouchStateManager.handlePointerCancel (always transitions, never sets
lastUpdateTime). -/
noncomputable def handlePointerCancel (pointer : PointerState) (s : Manager) :
    Manager × List Notification :=
  let s1 := { s with activePointers := mapDelete s.activePointers pointer.id }
  let e1 := cancelCurrentGesture s1
  let e2 := transitionToMode (determineTouchMode e1.1) pointer e1.1
  (e2.1, e1.2 ++ e2.2)

/-- A pointer event dispatched to the TouchStateManager. -/
inductive Event
  | down (p : PointerState)
  | move (p : PointerState)
  | up (p : PointerState)
  | cancel (p : PointerState)

/-- Dispatch one pointer event (state and emitted notifications). -/
noncomputable def step (s : Manager) : Event → Manager × List Notification
  | .down p => handlePointerDown p s
  | .move p => handlePointerMove p s
  | .up p => handlePointerUp p s
  | .cancel p => handlePointerCancel p s

/-- Run a sequence of pointer events from a state. -/
noncomputable def run (s : Manager) : List Event → Manager
  | [] => s
  | e :: rest => run (step s e).1 rest

/-- Number of onTouchModeChanged notifications in an emitted batch. -/
def countModeChanged (ns : List Notification) : ℕ :=
  (ns.filter Notification.isModeChanged).length

end TouchState

namespace GestureRecognizer

/-- src/input/gesture-recognizer.ts: GestureType. -/
inductive GestureType
  | PAN
  | ZOOM
  | ROTATE
  | UNDO
  | TAP
  | LONG_PRESS
  | SWIPE
deriving DecidableEq, Repr

/-- GesturePhase. -/
inductive GesturePhase
  | POSSIBLE
  | BEGAN
  | CHANGED
  | ENDED
  | CANCELLED
  | FAILED
deriving DecidableEq, Repr

/-- GestureData.undo payload. -/
structure UndoData where
  holdDuration : ℝ
  confirmationProgress : ℝ

/-- GestureData (only the undo member is populated by recognizeUndo;
the other optional members are left out of the payloads it builds). -/
structure GestureData where
  undo : Option UndoData

/-- RecognizedGesture. -/
structure RecognizedGesture where
  type : GestureType
  phase : GesturePhase
  timestamp : ℝ
  duration : ℝ
  pointers : List PointerState
  centroid : V
  confidence : ℝ
  data : GestureData

/-- GestureRecognitionOptions. -/
structure GestureRecognitionOptions where
  panThreshold : ℝ
  zoomThreshold : ℝ
  rotationThreshold : ℝ
  tapTimeout : ℝ
  tapRadius : ℝ
  longPressTimeout : ℝ
  undoHoldTime : ℝ
  swipeMinVelocity : ℝ
  swipeMinDistance : ℝ
  simultaneousRecognition : Bool

/-- DEFAULT_GESTURE_OPTIONS. -/
noncomputable def DEFAULT_GESTURE_OPTIONS : GestureRecognitionOptions :=
  { panThreshold := 10, zoomThreshold := 0.1,
    rotationThreshold := Real.pi / 18, tapTimeout := 300, tapRadius := 20,
    longPressTimeout := 500, undoHoldTime := 800, swipeMinVelocity := 100,
    swipeMinDistance := 50, simultaneousRecognition := true }

/-- The recognizer's undoState accumulator (fields start undefined; the
undefined boolean is read as false by the source, modelled as false). -/
structure UndoState where
  startTime : Option ℝ
  requiredHoldTime : Option ℝ
  isConfirmed : Bool

/-- The cleared undoState ({}). -/
def UndoState.empty : UndoState :=
  { startTime := none, requiredHoldTime := none, isConfirmed := false }

/-- GestureRecognizer.recognizeUndo: one evaluation at currentTime with the
given pointers, returning the updated undoState and the recognized gesture
(none on fewer than 3 pointers and on the initializing evaluation). -/
noncomputable def recognizeUndo (options : GestureRecognitionOptions)
    (s : UndoState) (pointers : List PointerState) (currentTime : ℝ) :
    UndoState × Option RecognizedGesture :=
  if pointers.length < 3 then (s, none)
  else
    let centroid := PointerEvents.calculateCentroid pointers
    -- JS `!this.undoState.startTime` is true on undefined and on 0 (falsy)
    if s.startTime = none ∨ s.startTime = some 0 then
      ({ startTime := some currentTime,
         requiredHoldTime := some options.undoHoldTime,
         isConfirmed := false }, none)
    else
      let t0 := s.startTime.getD 0
      let required := s.requiredHoldTime.getD 0
      let holdDuration := currentTime - t0
      let confirmationProgress := min 1 (holdDuration / required)
      let phase :=
        if required ≤ holdDuration then
          if s.isConfirmed then GesturePhase.ENDED else GesturePhase.CHANGED
        else GesturePhase.BEGAN
      let s1 :=
        if required ≤ holdDuration then { s with isConfirmed := true } else s
      let gesture : RecognizedGesture :=
        { type := .UNDO, phase := phase, timestamp := currentTime,
          duration := holdDuration, pointers := pointers, centroid := centroid,
          confidence := confirmationProgress,
          data := { undo := some { holdDuration := holdDuration,
                                   confirmationProgress := confirmationProgress } } }
      (s1, some gesture)

/-- Sequence of recognizeUndo evaluations: the gesture emitted at each step. -/
noncomputable def undoRun (options : GestureRecognitionOptions)
    (pointers : List PointerState) (s : UndoState) :
    List ℝ → List (Option RecognizedGesture)
  | [] => []
  | t :: ts =>
    (recognizeUndo options s pointers t).2 ::
      undoRun options pointers (recognizeUndo options s pointers t).1 ts

/-- The undoState after a sequence of recognizeUndo evaluations. -/
noncomputable def undoStateAfter (options : GestureRecognitionOptions)
    (pointers : List PointerState) (s : UndoState) : List ℝ → UndoState
  | [] => s
  | t :: ts => undoStateAfter options pointers (recognizeUndo options s pointers t).1 ts

end GestureRecognizer

namespace StrokeProcessor

/-- src/input/stroke-processor.ts: StrokePoint. -/
structure StrokePoint where
  position : V
  worldPosition : Pt
  timestamp : ℝ
  pressure : ℝ
  tiltX : ℝ
  tiltY : ℝ
  velocity : V

/-- A zero-valued StrokePoint, used only as the default for list reads the
source performs in bounds. -/
def StrokePoint.dummy : StrokePoint :=
  ⟨Vec2.zero,
   ⟨Vec2.zero, none, none, ⟨Mat3.IDENTITY, Mat3.IDENTITY, Mat3.IDENTITY, Mat3.IDENTITY⟩⟩,
   0, 0, 0, 0, Vec2.zero⟩

instance : Inhabited StrokePoint := ⟨StrokePoint.dummy⟩

/-- StrokeProcessingOptions. -/
structure StrokeProcessingOptions where
  targetSpacing : ℝ
  smoothingFactor : ℝ
  minCornerAngle : ℝ
  velocityWindowSize : ℕ
  pressureSensitivity : ℝ
  enableRealTimeSmoothing : Bool
  maxPointsPerStroke : ℕ

/-- DEFAULT_PROCESSING_OPTIONS. -/
noncomputable def DEFAULT_PROCESSING_OPTIONS : StrokeProcessingOptions :=
  { targetSpacing := 2, smoothingFactor := 0.3,
    minCornerAngle := Real.pi / 6, velocityWindowSize := 3,
    pressureSensitivity := 0.5, enableRealTimeSmoothing := true,
    maxPointsPerStroke := 2000 }

/-- The active-stroke record of StrokeProcessor. -/
structure ActiveStroke where
  id : String
  points : List StrokePoint
  startTime : ℝ
  lastProcessedIndex : ℕ

/-- Bounding box record. -/
structure BBox where
  min : V
  max : V
  size : V

/-- RawStroke. -/
structure RawStroke where
  id : String
  points : List StrokePoint
  startTime : ℝ
  endTime : ℝ
  boundingBox : BBox
  totalLength : ℝ
  averageVelocity : V
  maxVelocity : ℝ
  averagePressure : ℝ

/-- ProcessedStroke (RawStroke plus processed data). -/
structure ProcessedStroke extends RawStroke where
  smoothedPoints : List StrokePoint
  resampledPoints : List StrokePoint
  cornerIndices : List ℕ
  qualityScore : ℝ

/-- The mutable fields of StrokeProcessor. -/
structure State where
  options : StrokeProcessingOptions
  activeStroke : Option ActiveStroke
  pointPool : List StrokePoint
  strokeIdCounter : ℕ

/-- A fresh StrokeProcessor with the given options. -/
def State.mk0 (options : StrokeProcessingOptions) : State :=
  { options := options, activeStroke := none, pointPool := [], strokeIdCounter := 0 }

/-- StrokeProcessor.generateStrokeId (Date.now() injected as dateNow,
per the spec's injectable-clock design note). -/
def generateStrokeId (counter : ℕ) (dateNow : ℕ) : String :=
  "stroke_" ++ toString counter ++ "_" ++ toString dateNow

/-- StrokeProcessor.startStroke. -/
def startStroke (s : State) (initialPoint : StrokePoint) (dateNow : ℕ) :
    State × String :=
  let counter := s.strokeIdCounter + 1
  let strokeId := generateStrokeId counter dateNow
  ({ s with strokeIdCounter := counter,
            activeStroke := some { id := strokeId, points := [initialPoint],
                                   startTime := initialPoint.timestamp,
                                   lastProcessedIndex := 0 } },
   strokeId)

/-- StrokeProcessor.calculateVelocity. -/
noncomputable def calculateVelocity (options : StrokeProcessingOptions)
    (newPoint : StrokePoint) (existingPoints : List StrokePoint) : V :=
  let windowSize := min options.velocityWindowSize existingPoints.length
  if windowSize = 0 then Vec2.zero
  else
    let recentPoints := existingPoints.drop (existingPoints.length - windowSize)
    let oldestPoint := recentPoints.headD StrokePoint.dummy
    let timeDelta := newPoint.timestamp - oldestPoint.timestamp
    if timeDelta ≤ 0 then Vec2.zero
    else Vec2.divide (Vec2.subtract newPoint.position oldestPoint.position)
           (timeDelta / 1000)

/-- StrokeProcessor.smoothPointAtIndex. -/
noncomputable def smoothPointAtIndex (options : StrokeProcessingOptions)
    (points : List StrokePoint) (index : ℕ) : StrokePoint :=
  let windowSize : ℕ := 2
  let start := index - windowSize
  let stop := min (points.length - 1) (index + windowSize)
  let idxs := (List.range (stop + 1 - start)).map (· + start)
  let acc := idxs.foldl
    (fun (acc : V × ℝ × ℝ) i =>
      let weight : ℝ := 1 - (((max i index) - (min i index) : ℕ) : ℝ) / ((windowSize : ℝ) + 1)
      let p := points.getD i StrokePoint.dummy
      (Vec2.add acc.1 (Vec2.multiply p.position weight),
       acc.2.1 + p.pressure * weight, acc.2.2 + weight))
    (Vec2.zero, 0, 0)
  let sumPosition := acc.1
  let sumPressure := acc.2.1
  let count := acc.2.2
  let originalPoint := points.getD index StrokePoint.dummy
  if count = 0 then originalPoint
  else
    let smoothedPosition := Vec2.divide sumPosition count
    let smoothedPressure := sumPressure / count
    let factor := options.smoothingFactor
    { originalPoint with
        position := Vec2.lerp originalPoint.position smoothedPosition factor,
        pressure := originalPoint.pressure * (1 - factor) + smoothedPressure * factor }

/-- StrokeProcessor.applyRealTimeSmoothing (bounded causal smoothing over
indices [startIndex, endIndex], sequentially in place). -/
noncomputable def applyRealTimeSmoothing (options : StrokeProcessingOptions)
    (a : ActiveStroke) : ActiveStroke :=
  if a.points.length < 3 then a
  else
    let lastIndex := a.points.length - 1
    let smoothingRadius : ℕ := 2
    let startIndex := max a.lastProcessedIndex smoothingRadius
    let endIndex := max (lastIndex - smoothingRadius) startIndex
    let idxs := (List.range (endIndex + 1 - startIndex)).map (· + startIndex)
    let points := idxs.foldl
      (fun pts i => pts.set i (smoothPointAtIndex options pts i)) a.points
    { a with points := points, lastProcessedIndex := endIndex }

/-- StrokeProcessor.addPoint (throws without an active stroke; past the
point cap the sample is dropped and the state is unchanged). -/
noncomputable def addPoint (s : State) (point : StrokePoint) :
    Except String State :=
  match s.activeStroke with
  | none => .error "No active stroke. Call startStroke() first."
  | some a =>
    if s.options.maxPointsPerStroke ≤ a.points.length then .ok s
    else
      let velocity :=
        if 0 < a.points.length then calculateVelocity s.options point a.points
        else Vec2.zero
      let enhancedPoint := { point with velocity := velocity }
      let a1 := { a with points := a.points ++ [enhancedPoint] }
      let a2 :=
        if s.options.enableRealTimeSmoothing then applyRealTimeSmoothing s.options a1
        else a1
      .ok { s with activeStroke := some a2 }

/-- StrokeProcessor.calculateBoundingBox. -/
def calculateBoundingBox (points : List StrokePoint) : BBox :=
  match points with
  | [] => ⟨Vec2.zero, Vec2.zero, Vec2.zero⟩
  | p0 :: _ =>
    let acc := points.foldl
      (fun (acc : ℝ × ℝ × ℝ × ℝ) p =>
        (min acc.1 p.position.x, min acc.2.1 p.position.y,
         max acc.2.2.1 p.position.x, max acc.2.2.2 p.position.y))
      (p0.position.x, p0.position.y, p0.position.x, p0.position.y)
    let lo : V := ⟨acc.1, acc.2.1⟩
    let hi : V := ⟨acc.2.2.1, acc.2.2.2⟩
    ⟨lo, hi, Vec2.subtract hi lo⟩

/-- StrokeProcessor.calculateTotalLength. -/
noncomputable def calculateTotalLength (points : List StrokePoint) : ℝ :=
  ((points.zip points.tail).foldl
    (fun acc pq => acc + Vec2.distanceTo pq.1.position pq.2.position) 0)

/-- StrokeProcessor.calculateAverageVelocity. -/
noncomputable def calculateAverageVelocity (points : List StrokePoint) : V :=
  if points.length = 0 then Vec2.zero
  else
    Vec2.divide (points.foldl (fun acc p => Vec2.add acc p.velocity) Vec2.zero)
      (points.length : ℝ)

/-- StrokeProcessor.calculateMaxVelocity. -/
noncomputable def calculateMaxVelocity (points : List StrokePoint) : ℝ :=
  points.foldl (fun acc p => max acc (Vec2.length p.velocity)) 0

/-- StrokeProcessor.calculateAveragePressure. -/
noncomputable def calculateAveragePressure (points : List StrokePoint) : ℝ :=
  if points.length = 0 then 0
  else (points.foldl (fun acc p => acc + p.pressure) 0) / (points.length : ℝ)

/-- StrokeProcessor.createRawStroke (performance.now() injected as endTime). -/
noncomputable def createRawStroke (a : ActiveStroke) (endTime : ℝ) : RawStroke :=
  { id := a.id, points := a.points, startTime := a.startTime, endTime := endTime,
    boundingBox := calculateBoundingBox a.points,
    totalLength := calculateTotalLength a.points,
    averageVelocity := calculateAverageVelocity a.points,
    maxVelocity := calculateMaxVelocity a.points,
    averagePressure := calculateAveragePressure a.points }

/-- StrokeProcessor.removeDuplicatePoints. -/
noncomputable def removeDuplicatePoints (options : StrokeProcessingOptions)
    (points : List StrokePoint) : List StrokePoint :=
  if points.length ≤ 1 then points
  else
    match points with
    | [] => []
    | p0 :: rest =>
      let minDistance := options.targetSpacing * 0.5
      rest.foldl
        (fun result currentPoint =>
          let lastPoint := result.getLastD StrokePoint.dummy
          if minDistance ≤ Vec2.distanceTo currentPoint.position lastPoint.position
          then result ++ [currentPoint] else result)
        [p0]

/-- One in-place smoothing pass of applySmoothingFilter. -/
noncomputable def smoothingPass (options : StrokeProcessingOptions)
    (pts : List StrokePoint) : List StrokePoint :=
  let windowSize : ℕ := 2
  let idxs := (List.range (pts.length - 2 * windowSize)).map (· + windowSize)
  idxs.foldl (fun acc i => acc.set i (smoothPointAtIndex options acc i)) pts

/-- StrokeProcessor.applySmoothingFilter (ceil(smoothingFactor*3) passes). -/
noncomputable def applySmoothingFilter (options : StrokeProcessingOptions)
    (points : List StrokePoint) : List StrokePoint :=
  if points.length ≤ 2 then points
  else
    let passes := (⌈options.smoothingFactor * 3⌉).toNat
    (List.range passes).foldl (fun acc _ => smoothingPass options acc) points

/-- StrokeProcessor.interpolateStrokePoints (Pt.lerp in its default
WORLD system). -/
noncomputable def interpolateStrokePoints (p1 p2 : StrokePoint) (t : ℝ) : StrokePoint :=
  { position := Vec2.lerp p1.position p2.position t,
    worldPosition := Pt.lerp p1.worldPosition p2.worldPosition t CoordinateSystem.WORLD,
    timestamp := p1.timestamp + (p2.timestamp - p1.timestamp) * t,
    pressure := p1.pressure + (p2.pressure - p1.pressure) * t,
    tiltX := p1.tiltX + (p2.tiltX - p1.tiltX) * t,
    tiltY := p1.tiltY + (p2.tiltY - p1.tiltY) * t,
    velocity := Vec2.lerp p1.velocity p2.velocity t }

/-- Number of interpolated points emitted by the inner resampling loop
(`while accumulated >= spacing`): its closed form for spacing > 0.  For
spacing ≤ 0 the source loop would not terminate; no configuration used
by the code reaches that case and it is modelled as zero iterations. -/
noncomputable def resampleIterations (accumulated spacing : ℝ) : ℕ :=
  if 0 < spacing then (⌊accumulated / spacing⌋).toNat else 0

/-- StrokeProcessor.resampleStroke. -/
noncomputable def resampleStroke (options : StrokeProcessingOptions)
    (points : List StrokePoint) : List StrokePoint :=
  if points.length ≤ 1 then points
  else
    match points with
    | [] => []
    | p0 :: _ =>
      let targetSpacing := options.targetSpacing
      let step := (points.zip points.tail).foldl
        (fun (st : List StrokePoint × ℝ) pq =>
          let (result, accumulated) := st
          let (previousPoint, currentPoint) := pq
          let segmentLength :=
            Vec2.distanceTo previousPoint.position currentPoint.position
          let acc1 := accumulated + segmentLength
          let k := resampleIterations acc1 targetSpacing
          let newPts := (List.range k).map (fun j =>
            let excess := acc1 - ((j : ℝ) + 1) * targetSpacing
            interpolateStrokePoints previousPoint currentPoint
              (1 - excess / segmentLength))
          (result ++ newPts, acc1 - (k : ℝ) * targetSpacing))
        ([p0], 0)
      step.1 ++ [points.getLastD StrokePoint.dummy]

/-- StrokeProcessor.calculateAngleAtPoint. -/
noncomputable def calculateAngleAtPoint (points : List StrokePoint)
    (index windowSize : ℕ) : ℝ :=
  if index < windowSize ∨ points.length ≤ index + windowSize then Real.pi
  else
    let before := (points.getD (index - windowSize) StrokePoint.dummy).position
    let current := (points.getD index StrokePoint.dummy).position
    let after := (points.getD (index + windowSize) StrokePoint.dummy).position
    let vec1 := Vec2.normalized (Vec2.subtract current before)
    let vec2 := Vec2.normalized (Vec2.subtract after current)
    Real.arccos (max (-1) (min 1 (Vec2.dot vec1 vec2)))

/-- StrokeProcessor.detectCorners (the processor's own angle-based pass). -/
noncomputable def detectCornersProc (options : StrokeProcessingOptions)
    (points : List StrokePoint) : List ℕ :=
  if points.length < 3 then []
  else
    let windowSize : ℕ := 3
    let idxs := (List.range (points.length - 2 * windowSize)).map (· + windowSize)
    idxs.foldl
      (fun corners i =>
        if calculateAngleAtPoint points i windowSize < options.minCornerAngle
        then corners ++ [i] else corners)
      []

/-- StrokeProcessor.calculateJitterRatio renamed to avoid clash: total
turning angle per unit length. -/
noncomputable def calculateJitter (points : List StrokePoint) : ℝ :=
  if points.length < 3 then 0
  else
    let idxs := (List.range (points.length - 2)).map (· + 1)
    let acc := idxs.foldl
      (fun (acc : ℝ × ℝ) i =>
        let prev := points.getD (i - 1) StrokePoint.dummy
        let curr := points.getD i StrokePoint.dummy
        let next := points.getD (i + 1) StrokePoint.dummy
        let vec1 := Vec2.subtract curr.position prev.position
        let vec2 := Vec2.subtract next.position curr.position
        if 0 < Vec2.lengthSquared vec1 ∧ 0 < Vec2.lengthSquared vec2 then
          (acc.1 + |Vec2.angleTo vec1 vec2|, acc.2 + Vec2.length vec1)
        else acc)
      (0, 0)
    if 0 < acc.2 then acc.1 / acc.2 else 0

/-- StrokeProcessor.calculateVelocityConsistency. -/
noncomputable def calculateVelocityConsistency (points : List StrokePoint) : ℝ :=
  if points.length < 2 then 1
  else
    let avgVelocity := Vec2.length (calculateAverageVelocity points)
    let velocityVariance :=
      (points.foldl
        (fun acc p =>
          let diff := Vec2.length p.velocity - avgVelocity
          acc + diff * diff) 0) / (points.length : ℝ)
    let coefficient :=
      if 0 < avgVelocity then Real.sqrt velocityVariance / avgVelocity else 0
    max 0 (1 - coefficient)

/-- StrokeProcessor.calculateQualityScore. -/
noncomputable def calculateQualityScore (raw : RawStroke) : ℝ :=
  let score : ℝ := 1
  let score := if raw.totalLength < 10 then score * 0.5 else score
  let score := if raw.points.length < 5 then score * 0.7 else score
  let score := score * max 0.1 (1 - calculateJitter raw.points)
  let score := score * (0.5 + 0.5 * calculateVelocityConsistency raw.points)
  max 0 (min 1 score)

/-- StrokeProcessor.processStroke. -/
noncomputable def processStroke (options : StrokeProcessingOptions)
    (rawStroke : RawStroke) : ProcessedStroke :=
  let deduplicated := removeDuplicatePoints options rawStroke.points
  let smoothed := applySmoothingFilter options deduplicated
  let resampled := resampleStroke options smoothed
  let cornerIndices := detectCornersProc options resampled
  let qualityScore := calculateQualityScore rawStroke
  { rawStroke with
      smoothedPoints := smoothed, resampledPoints := resampled,
      cornerIndices := cornerIndices, qualityScore := qualityScore }

/-- StrokeProcessor.recyclePoints (pool push, truncated past 1000). -/
def recyclePoints (pool points : List StrokePoint) : List StrokePoint :=
  let p := pool ++ points
  if 1000 < p.length then p.take 500 else p

/-- StrokeProcessor.endStroke (performance.now() injected as endTime). -/
noncomputable def endStroke (s : State) (endTime : ℝ) :
    Except String (ProcessedStroke × State) :=
  match s.activeStroke with
  | none => .error "No active stroke to end."
  | some a =>
    let rawStroke := createRawStroke a endTime
    let processedStroke := processStroke s.options rawStroke
    .ok (processedStroke,
         { s with pointPool := recyclePoints s.pointPool a.points,
                  activeStroke := none })

/-- StrokeProcessor.cancelStroke (a no-op without an active stroke). -/
def cancelStroke (s : State) : State :=
  match s.activeStroke with
  | none => s
  | some a =>
    { s with pointPool := recyclePoints s.pointPool a.points, activeStroke := none }

/-- StrokeProcessor.isCapturing. -/
def isCapturing (s : State) : Bool := s.activeStroke.isSome

/-- StrokeProcessor.activeStrokePoints. -/
def activeStrokePoints (s : State) : List StrokePoint :=
  match s.activeStroke with
  | none => []
  | some a => a.points

end StrokeProcessor

namespace CornerDetector

/-- src/input/corner-detector.ts: segment type label. -/
inductive SegKind
  | line
  | curve
deriving DecidableEq, Repr

/-- One labeled run of the corner-detection result. -/
structure SegmentInfo where
  startIndex : ℕ
  endIndex : ℕ
  type : SegKind
  quality : ℝ

/-- CornerDetectionResult. -/
structure CornerDetectionResult where
  cornerIndices : List ℕ
  curvatures : List ℝ
  confidence : List ℝ
  segments : List SegmentInfo

/-- CornerDetectionOptions. -/
structure CornerDetectionOptions where
  curvatureThreshold : ℝ
  minSegmentLength : ℝ
  smoothingWindow : ℕ
  confidenceThreshold : ℝ
  adaptiveThreshold : Bool
  filterNearbyCorners : Bool

/-- DEFAULT_CORNER_OPTIONS. -/
noncomputable def DEFAULT_CORNER_OPTIONS : CornerDetectionOptions :=
  { curvatureThreshold := 0.8, minSegmentLength := 15, smoothingWindow := 5,
    confidenceThreshold := 0.6, adaptiveThreshold := true,
    filterNearbyCorners := true }

/-- CornerDetector.calculateCircumcircleCurvature: 4·Area/(a·b·c). -/
noncomputable def calculateCircumcircleCurvature (p1 p2 p3 : V) : ℝ :=
  let a := Vec2.distanceTo p2 p3
  let b := Vec2.distanceTo p1 p3
  let c := Vec2.distanceTo p1 p2
  let area := |Vec2.cross (Vec2.subtract p2 p1) (Vec2.subtract p3 p1)| / 2
  if area < 1e-10 ∨ a * b * c < 1e-10 then 0
  else (4 * area) / (a * b * c)

/-- CornerDetector.calculateCurvatures (zero at endpoints within the window). -/
noncomputable def calculateCurvatures (options : CornerDetectionOptions)
    (points : List V) : List ℝ :=
  let w := options.smoothingWindow
  (List.range points.length).map (fun i =>
    if i < w ∨ points.length - w ≤ i then 0
    else
      calculateCircumcircleCurvature (points.getD (i - w) Vec2.zero)
        (points.getD i Vec2.zero) (points.getD (i + w) Vec2.zero))

/-- CornerDetector.calculateAngleCurvature (angle-based estimate). -/
noncomputable def calculateAngleCurvature (points : List V)
    (index windowSize : ℕ) : ℝ :=
  if index < windowSize ∨ points.length - windowSize ≤ index then 0
  else
    let p1 := points.getD (index - windowSize) Vec2.zero
    let p2 := points.getD index Vec2.zero
    let p3 := points.getD (index + windowSize) Vec2.zero
    let v1 := Vec2.normalized (Vec2.subtract p2 p1)
    let v2 := Vec2.normalized (Vec2.subtract p3 p2)
    let d := max (-1) (min 1 (Vec2.dot v1 v2))
    Real.pi - Real.arccos d

/-- CornerDetector.createGaussianKernel. -/
noncomputable def createGaussianKernel (size : ℕ) : List ℝ :=
  let sigma : ℝ := (size : ℝ) / 6
  let center := size / 2
  let raw := (List.range size).map (fun i =>
    let x : ℝ := (i : ℝ) - (center : ℝ)
    Real.exp (-(x * x) / (2 * sigma * sigma)))
  let sum := raw.foldl (· + ·) 0
  raw.map (· / sum)

/-- CornerDetector.smoothCurvatures. -/
noncomputable def smoothCurvatures (options : CornerDetectionOptions)
    (curvatures : List ℝ) : List ℝ :=
  if curvatures.length < 3 then curvatures
  else
    let kernel := createGaussianKernel options.smoothingWindow
    let halfWindow := options.smoothingWindow / 2
    (List.range curvatures.length).map (fun i =>
      if i < halfWindow ∨ curvatures.length - halfWindow ≤ i then
        curvatures.getD i 0
      else
        let acc := (List.range (2 * halfWindow + 1)).foldl
          (fun (acc : ℝ × ℝ) jj =>
            let weight := kernel.getD jj 0
            (acc.1 + (curvatures.getD (i + jj - halfWindow) 0) * weight,
             acc.2 + weight))
          (0, 0)
        if 0 < acc.2 then acc.1 / acc.2 else curvatures.getD i 0)

/-- CornerDetector.calculateAdaptiveThreshold. -/
noncomputable def calculateAdaptiveThreshold (options : CornerDetectionOptions)
    (curvatures : List ℝ) : ℝ :=
  if curvatures.length = 0 then options.curvatureThreshold
  else
    let sorted := sortAsc curvatures
    let median := sorted.getD (sorted.length / 2) 0
    let q75 := sorted.getD (3 * sorted.length / 4) 0
    let mx := sorted.getD (sorted.length - 1) 0
    max (max (median + (q75 - median) * 2) (mx * 0.3)) options.curvatureThreshold

/-- CornerDetector.isValidCornerPosition. -/
noncomputable def isValidCornerPosition (options : CornerDetectionOptions)
    (points : List V) (existingCorners : List ℕ) (candidateIndex : ℕ) : Prop :=
  ∀ cornerIndex ∈ existingCorners,
    ¬ (Vec2.distanceTo (points.getD candidateIndex Vec2.zero)
         (points.getD cornerIndex Vec2.zero) < options.minSegmentLength)

/-- CornerDetector.findCornerCandidates (strict local maxima over the
threshold, accepted in sequence order). -/
noncomputable def findCornerCandidates (options : CornerDetectionOptions)
    (points : List V) (curvatures : List ℝ) : List ℕ :=
  let threshold :=
    if options.adaptiveThreshold then calculateAdaptiveThreshold options curvatures
    else options.curvatureThreshold
  ((List.range (curvatures.length - 2)).map (· + 1)).foldl
    (fun candidates i =>
      let curvature := curvatures.getD i 0
      if threshold < curvature ∧
         curvatures.getD (i - 1) 0 < curvature ∧
         curvatures.getD (i + 1) 0 < curvature ∧
         isValidCornerPosition options points candidates i
      then candidates ++ [i] else candidates)
    []

/-- CornerDetector.filterNearbyCorners. -/
noncomputable def filterNearby (options : CornerDetectionOptions)
    (points : List V) (corners : List ℕ) : List ℕ :=
  match corners with
  | [] => []
  | c0 :: rest =>
    if corners.length ≤ 1 then corners
    else
      rest.foldl
        (fun filtered currentCorner =>
          if ∀ acceptedCorner ∈ filtered,
              ¬ (Vec2.distanceTo (points.getD currentCorner Vec2.zero)
                   (points.getD acceptedCorner Vec2.zero) < options.minSegmentLength)
          then filtered ++ [currentCorner] else filtered)
        [c0]

/-- CornerDetector.refineCornerPosition (local curvature maximum within a
3-index search radius). -/
noncomputable def refineCornerPosition (points : List V) (initialIndex : ℕ) : ℕ :=
  let searchRadius : ℕ := 3
  let start := initialIndex - searchRadius
  let stop := min (points.length - 1) (initialIndex + searchRadius)
  let idxs := (List.range (stop + 1 - start)).map (· + start)
  let best := idxs.foldl
    (fun (best : ℕ × ℝ) i =>
      let curvature := calculateCircumcircleCurvature
        (points.getD (i - 2) Vec2.zero) (points.getD i Vec2.zero)
        (points.getD (min (points.length - 1) (i + 2)) Vec2.zero)
      if best.2 < curvature then (i, curvature) else best)
    (initialIndex, 0)
  best.1

/-- CornerDetector.refineCorners. -/
noncomputable def refineCorners (options : CornerDetectionOptions)
    (points : List V) (candidates : List ℕ) : List ℕ :=
  let refined :=
    if options.filterNearbyCorners then filterNearby options points candidates
    else candidates
  let refined := refined.map (refineCornerPosition points)
  sortAscNat (dedupFirst refined)

/-- CornerDetector.calculateCornerConfidence. -/
noncomputable def calculateCornerConfidence (points : List V)
    (curvatures : List ℝ) (cornerIndex : ℕ) : ℝ :=
  if curvatures.length ≤ cornerIndex then 0
  else
    let curvature := curvatures.getD cornerIndex 0
    let maxCurvature := listMax curvatures
    let curvatureScore := if 0 < maxCurvature then curvature / maxCurvature else 0
    let confidence := 1 * curvatureScore
    let windowSize : ℕ := 5
    let start := cornerIndex - windowSize
    let stop := min (curvatures.length - 1) (cornerIndex + windowSize)
    let idxs := (List.range (stop + 1 - start)).map (· + start)
    let acc := idxs.foldl
      (fun (acc : ℝ × ℝ) i =>
        if i ≠ cornerIndex then (acc.1 + curvatures.getD i 0, acc.2 + 1) else acc)
      (curvature, 1)
    let localAvg := acc.1 / acc.2
    let prominenceScore := if 0 < localAvg then curvature / localAvg else 1
    let confidence := confidence * min 1 (prominenceScore / 2)
    let angleCurvature := calculateAngleCurvature points cornerIndex 2
    let consistencyScore :=
      min curvature angleCurvature / max (max curvature angleCurvature) 1e-10
    let confidence := confidence * consistencyScore
    max 0 (min 1 confidence)

/-- CornerDetector.calculateConfidenceScores. -/
noncomputable def calculateConfidenceScores (points : List V)
    (curvatures : List ℝ) (corners : List ℕ) : List ℝ :=
  corners.map (calculateCornerConfidence points curvatures)

/-- CornerDetector.calculateLinearityScore (scale factor 10). -/
noncomputable def calculateLinearityScore (points : List V)
    (startIndex endIndex : ℕ) : ℝ :=
  if endIndex ≤ startIndex + 1 then 1
  else
    let startPoint := points.getD startIndex Vec2.zero
    let endPoint := points.getD endIndex Vec2.zero
    let totalDistance := Vec2.distanceTo startPoint endPoint
    if totalDistance < 1e-6 then 1
    else
      let idxs := (List.range (endIndex - startIndex - 1)).map (· + (startIndex + 1))
      let maxDeviation := idxs.foldl
        (fun acc i =>
          let point := points.getD i Vec2.zero
          let lineVector := Vec2.subtract endPoint startPoint
          let pointVector := Vec2.subtract point startPoint
          let deviation :=
            if Vec2.lengthSquared lineVector < 1e-10 then Vec2.length pointVector
            else |Vec2.cross pointVector lineVector| / Vec2.length lineVector
          max acc deviation)
        0
      max 0 (1 - (maxDeviation / totalDistance) * 10)

/-- CornerDetector.analyzeSegment. -/
noncomputable def analyzeSegment (points : List V) (startIndex endIndex : ℕ) :
    SegmentInfo :=
  if endIndex ≤ startIndex + 1 then
    { startIndex := startIndex, endIndex := endIndex, type := .line, quality := 1 }
  else
    let linearityScore := calculateLinearityScore points startIndex endIndex
    if 0.8 < linearityScore then
      { startIndex := startIndex, endIndex := endIndex, type := .line,
        quality := linearityScore }
    else
      { startIndex := startIndex, endIndex := endIndex, type := .curve,
        quality := 1 - linearityScore }

/-- CornerDetector.generateSegments. -/
noncomputable def generateSegments (points : List V) (corners : List ℕ) :
    List SegmentInfo :=
  let step := corners.foldl
    (fun (st : List SegmentInfo × ℕ) cornerIndex =>
      let (segments, lastIndex) := st
      if lastIndex < cornerIndex then
        (segments ++ [analyzeSegment points lastIndex cornerIndex], cornerIndex)
      else (segments, cornerIndex))
    ([], 0)
  if step.2 < points.length - 1 then
    step.1 ++ [analyzeSegment points step.2 (points.length - 1)]
  else step.1

/-- CornerDetector.detectCorners: the full pipeline; fewer than 3 points
short-circuits to the degenerate result. -/
noncomputable def detectCorners (options : CornerDetectionOptions)
    (points : List V) : CornerDetectionResult :=
  if points.length < 3 then
    { cornerIndices := [], curvatures := [], confidence := [],
      segments :=
        if 2 ≤ points.length then
          [{ startIndex := 0, endIndex := points.length - 1, type := .line,
             quality := 1 }]
        else [] }
  else
    let curvatures := calculateCurvatures options points
    let smoothedCurvatures := smoothCurvatures options curvatures
    let candidates := findCornerCandidates options points smoothedCurvatures
    let refinedCorners := refineCorners options points candidates
    let confidenceScores :=
      calculateConfidenceScores points smoothedCurvatures refinedCorners
    let segments := generateSegments points refinedCorners
    { cornerIndices := refinedCorners, curvatures := smoothedCurvatures,
      confidence := confidenceScores, segments := segments }

end CornerDetector

namespace Geometry

/-- src/core/geometry/line-segment.ts: LineSegment (start and end point). -/
structure LineSegment where
  startPoint : V
  endPoint : V

/-- Segment.clampParameter. -/
noncomputable def clampParameter (t : ℝ) : ℝ := max 0 (min 1 t)

/-- LineSegment.pointAt. -/
def LineSegment.pointAt (l : LineSegment) (t : ℝ) : V :=
  Vec2.lerp l.startPoint l.endPoint t

/-- LineSegment.closestPointTo (returns the closest point, the unclamped
parameter and the distance). -/
noncomputable def LineSegment.closestPointTo (l : LineSegment) (point : V) :
    V × ℝ × ℝ :=
  let lineVector := Vec2.subtract l.endPoint l.startPoint
  let pointVector := Vec2.subtract point l.startPoint
  if Vec2.lengthSquared lineVector = 0 then
    (l.startPoint, 0, Vec2.distanceTo point l.startPoint)
  else
    let t := Vec2.dot pointVector lineVector / Vec2.lengthSquared lineVector
    let closestPoint := l.pointAt (clampParameter t)
    (closestPoint, t, Vec2.distanceTo point closestPoint)

/-- LineSegment.distanceToPoint. -/
noncomputable def LineSegment.distanceToPoint (l : LineSegment) (point : V) : ℝ :=
  (l.closestPointTo point).2.2

/-- src/core/geometry/arc-segment.ts: the angle normalization loop
(subtract or add 2π until the angle lies in [-π, π]), in closed form. -/
noncomputable def normalizeAngle (angle : ℝ) : ℝ :=
  if Real.pi < angle then
    angle - 2 * Real.pi * (⌈(angle - Real.pi) / (2 * Real.pi)⌉ : ℝ)
  else if angle < -Real.pi then
    angle + 2 * Real.pi * (⌈(-Real.pi - angle) / (2 * Real.pi)⌉ : ℝ)
  else angle

/-- ArcSegment data (center, radius, startAngle, sweepAngle). -/
structure ArcSegment where
  center : V
  radius : ℝ
  startAngle : ℝ
  sweepAngle : ℝ

/-- The ArcSegment constructor: |radius| and normalized start angle.
(The source throws on zero radius; no embedded caller constructs one.) -/
noncomputable def ArcSegment.make (center : V) (radius startAngle sweepAngle : ℝ) :
    ArcSegment :=
  { center := center, radius := |radius|,
    startAngle := normalizeAngle startAngle, sweepAngle := sweepAngle }

/-- ArcSegment.endAngle. -/
noncomputable def ArcSegment.endAngle (a : ArcSegment) : ℝ :=
  normalizeAngle (a.startAngle + a.sweepAngle)

/-- ArcSegment.startPoint. -/
noncomputable def ArcSegment.startPt (a : ArcSegment) : V :=
  Vec2.add a.center (Vec2.fromPolar a.radius a.startAngle)

/-- ArcSegment.endPoint. -/
noncomputable def ArcSegment.endPt (a : ArcSegment) : V :=
  Vec2.add a.center (Vec2.fromPolar a.radius a.endAngle)

/-- ArcSegment.containsAngle. -/
noncomputable def ArcSegment.containsAngle (a : ArcSegment) (angle : ℝ) : Prop :=
  let normalizedAngle := normalizeAngle angle
  let startAngle := a.startAngle
  let endAngle := a.endAngle
  if 0 < a.sweepAngle then
    if startAngle ≤ endAngle then
      startAngle ≤ normalizedAngle ∧ normalizedAngle ≤ endAngle
    else
      startAngle ≤ normalizedAngle ∨ normalizedAngle ≤ endAngle
  else
    if endAngle ≤ startAngle then
      endAngle ≤ normalizedAngle ∧ normalizedAngle ≤ startAngle
    else
      endAngle ≤ normalizedAngle ∨ normalizedAngle ≤ startAngle

/-- ArcSegment.distanceToPoint. -/
noncomputable def ArcSegment.distanceToPoint (a : ArcSegment) (point : V) : ℝ :=
  let centerToPoint := Vec2.subtract point a.center
  let distanceToCenter := Vec2.length centerToPoint
  if distanceToCenter = 0 then a.radius
  else
    let pointAngle := atan2 centerToPoint.y centerToPoint.x
    if a.containsAngle pointAngle then |distanceToCenter - a.radius|
    else
      min (Vec2.distanceTo point a.startPt) (Vec2.distanceTo point a.endPt)

/-- ArcSegment.findCircleFromThreePoints (perpendicular bisector
intersection; none when the determinant is below tolerance). -/
noncomputable def findCircleFromThreePoints (p1 p2 p3 : V) : Option (V × ℝ) :=
  let mid1 := Vec2.lerp p1 p2 0.5
  let mid2 := Vec2.lerp p2 p3 0.5
  let dir1 := Vec2.perpendicular (Vec2.subtract p2 p1)
  let dir2 := Vec2.perpendicular (Vec2.subtract p3 p2)
  let det := Vec2.cross dir1 dir2
  if |det| < 1e-10 then none
  else
    let diff := Vec2.subtract mid2 mid1
    let t := Vec2.cross diff dir2 / det
    let center := Vec2.add mid1 (Vec2.multiply dir1 t)
    some (center, Vec2.distanceTo center p1)

/-- ArcSegment.calculateSweepAngle (direction heuristic). -/
noncomputable def calculateSweepAngle (startAngle endAngle _midAngle : ℝ) : ℝ :=
  let ccwSweep := endAngle - startAngle
  let cwSweep := ccwSweep - 2 * Real.pi * jsSign ccwSweep
  if |ccwSweep| ≤ Real.pi then ccwSweep else cwSweep

/-- ArcSegment.fromThreePoints (none when the points are collinear). -/
noncomputable def fromThreePoints (p1 p2 p3 : V) : Option ArcSegment :=
  match findCircleFromThreePoints p1 p2 p3 with
  | none => none
  | some (center, radius) =>
    let angle1 := atan2 (p1.y - center.y) (p1.x - center.x)
    let angle2 := atan2 (p2.y - center.y) (p2.x - center.x)
    let angle3 := atan2 (p3.y - center.y) (p3.x - center.x)
    let sweepAngle := calculateSweepAngle angle1 angle3 angle2
    some (ArcSegment.make center radius angle1 sweepAngle)

end Geometry

namespace StrokeToGeometry

open Geometry
open StrokeProcessor (ProcessedStroke)

/-- src/input/stroke-to-geometry.ts: GeometryType. -/
inductive GeometryType
  | LINE
  | ARC
  | CIRCLE
  | SPLINE
  | UNKNOWN
deriving DecidableEq, Repr

/-- The fitted segment (LineSegment or ArcSegment). -/
inductive Segment
  | line (l : LineSegment)
  | arc (a : ArcSegment)

/-- Fitting metadata (method name and named numeric parameters). -/
structure FitMetadata where
  method : String
  parameters : List (String × ℝ)

/-- GeometryFitResult. -/
structure GeometryFitResult where
  segment : Segment
  type : GeometryType
  confidence : ℝ
  error : ℝ
  points : List V
  metadata : FitMetadata

/-- ConversionOptions. -/
structure ConversionOptions where
  lineThreshold : ℝ
  arcThreshold : ℝ
  circleThreshold : ℝ
  minSegmentLength : ℝ
  enableCircleDetection : Bool
  enableSplineGeneration : Bool
  maxFittingIterations : ℕ
  confidenceThreshold : ℝ

/-- DEFAULT_CONVERSION_OPTIONS. -/
noncomputable def DEFAULT_CONVERSION_OPTIONS : ConversionOptions :=
  { lineThreshold := 3, arcThreshold := 5, circleThreshold := 8,
    minSegmentLength := 20, enableCircleDetection := true,
    enableSplineGeneration := false, maxFittingIterations := 50,
    confidenceThreshold := 0.6 }

/-- StrokeToGeometryConverter.calculateLineError (RMS distance to the
fitted segment). -/
noncomputable def calculateLineError (points : List V) (line : LineSegment) : ℝ :=
  Real.sqrt ((points.foldl
    (fun acc point =>
      let d := line.distanceToPoint point
      acc + d * d) 0) / (points.length : ℝ))

/-- StrokeToGeometryConverter.calculateArcError. -/
noncomputable def calculateArcError (points : List V) (arc : ArcSegment) : ℝ :=
  Real.sqrt ((points.foldl
    (fun acc point =>
      let d := arc.distanceToPoint point
      acc + d * d) 0) / (points.length : ℝ))

/-- StrokeToGeometryConverter.calculateCircleError. -/
noncomputable def calculateCircleError (points : List V) (center : V)
    (radius : ℝ) : ℝ :=
  Real.sqrt ((points.foldl
    (fun acc point =>
      let d := |Vec2.distanceTo point center - radius|
      acc + d * d) 0) / (points.length : ℝ))

/-- StrokeToGeometryConverter.pointToLineDistance. -/
noncomputable def pointToLineDistance (point lineStart lineEnd : V) : ℝ :=
  let lineVector := Vec2.subtract lineEnd lineStart
  let pointVector := Vec2.subtract point lineStart
  if Vec2.lengthSquared lineVector < 1e-10 then Vec2.length pointVector
  else |Vec2.cross pointVector lineVector| / Vec2.length lineVector

/-- StrokeToGeometryConverter.calculateLinearity (scale factor 5). -/
noncomputable def calculateLinearity (points : List V) : ℝ :=
  if points.length < 3 then 1
  else
    let startPoint := points.headD Vec2.zero
    let endPoint := points.getLastD Vec2.zero
    let totalDistance := Vec2.distanceTo startPoint endPoint
    if totalDistance < 1e-6 then 1
    else
      let idxs := (List.range (points.length - 2)).map (· + 1)
      let maxDeviation := idxs.foldl
        (fun acc i =>
          max acc (pointToLineDistance (points.getD i Vec2.zero) startPoint endPoint))
        0
      max 0 (1 - (maxDeviation / totalDistance) * 5)

/-- StrokeToGeometryConverter.calculateCurvature (4·Area/(a·b·c)). -/
noncomputable def calculateCurvature (p1 p2 p3 : V) : ℝ :=
  let a := Vec2.distanceTo p1 p2
  let b := Vec2.distanceTo p2 p3
  let c := Vec2.distanceTo p3 p1
  let area := |Vec2.cross (Vec2.subtract p2 p1) (Vec2.subtract p3 p1)| / 2
  if area < 1e-10 ∨ a * b * c < 1e-10 then 0
  else (4 * area) / (a * b * c)

/-- StrokeToGeometryConverter.calculateCurvatureConsistency (one minus the
coefficient of variation of pointwise curvature). -/
noncomputable def calculateCurvatureConsistency (points : List V) : ℝ :=
  if points.length < 5 then 1
  else
    let idxs := (List.range (points.length - 4)).map (· + 2)
    let curvatures := idxs.map (fun i =>
      calculateCurvature (points.getD (i - 2) Vec2.zero)
        (points.getD i Vec2.zero) (points.getD (i + 2) Vec2.zero))
    if curvatures.length = 0 then 1
    else
      let mean := (curvatures.foldl (· + ·) 0) / (curvatures.length : ℝ)
      let variance :=
        (curvatures.foldl (fun acc c => acc + (c - mean) * (c - mean)) 0) /
          (curvatures.length : ℝ)
      let stdDev := Real.sqrt variance
      let coefficientOfVariation := if 0 < mean then stdDev / mean else 0
      max 0 (1 - coefficientOfVariation)

/-- StrokeToGeometryConverter.calculateRadiusConsistency. -/
noncomputable def calculateRadiusConsistency (points : List V) (center : V)
    (targetRadius : ℝ) : ℝ :=
  let radii := points.map (fun p => Vec2.distanceTo p center)
  let sumSquaredError :=
    radii.foldl (fun acc radius =>
      let e := |radius - targetRadius|
      acc + e * e) 0
  let rmsError := Real.sqrt (sumSquaredError / (radii.length : ℝ))
  let relativeError := if 0 < targetRadius then rmsError / targetRadius else 1
  max 0 (1 - relativeError * 2)

/-- StrokeToGeometryConverter.calculateAverageSpacing. -/
noncomputable def calculateAverageSpacing (points : List V) : ℝ :=
  if points.length < 2 then 0
  else
    ((points.zip points.tail).foldl
      (fun acc pq => acc + Vec2.distanceTo pq.1 pq.2) 0) /
      ((points.length : ℝ) - 1)

/-- StrokeToGeometryConverter.isSegmentTooShort. -/
noncomputable def isSegmentTooShort (options : ConversionOptions)
    (points : List V) : Prop :=
  if points.length < 2 then True
  else
    Vec2.distanceTo (points.headD Vec2.zero) (points.getLastD Vec2.zero) <
      options.minSegmentLength

/-- StrokeToGeometryConverter.fitLine. -/
noncomputable def fitLine (options : ConversionOptions) (points : List V) :
    Option GeometryFitResult :=
  if points.length < 2 then none
  else
    let startPoint := points.headD Vec2.zero
    let endPoint := points.getLastD Vec2.zero
    let segment : LineSegment := ⟨startPoint, endPoint⟩
    let error := calculateLineError points segment
    let confidence :=
      if options.lineThreshold < error then
        max 0 (1 - (error - options.lineThreshold) / options.lineThreshold)
      else 1
    let linearity := calculateLinearity points
    some { segment := .line segment, type := .LINE,
           confidence := confidence * linearity, error := error, points := points,
           metadata := { method := "least_squares_endpoints",
                         parameters := [("linearity", linearity)] } }

/-- StrokeToGeometryConverter.fitArc (three-point construction; none when
the construction fails on collinear points — the thrown error is caught
by the source and turned into null). -/
noncomputable def fitArc (options : ConversionOptions) (points : List V) :
    Option GeometryFitResult :=
  if points.length < 3 then none
  else
    let startPoint := points.headD Vec2.zero
    let middlePoint := points.getD (points.length / 2) Vec2.zero
    let endPoint := points.getLastD Vec2.zero
    match fromThreePoints startPoint middlePoint endPoint with
    | none => none
    | some segment =>
      let error := calculateArcError points segment
      let confidence :=
        if options.arcThreshold < error then
          max 0 (1 - (error - options.arcThreshold) / options.arcThreshold)
        else 1
      let curvatureConsistency := calculateCurvatureConsistency points
      some { segment := .arc segment, type := .ARC,
             confidence := confidence * curvatureConsistency, error := error,
             points := points,
             metadata := { method := "three_point_fit",
                           parameters := [("radius", segment.radius),
                             ("curvatureConsistency", curvatureConsistency)] } }

/-- StrokeToGeometryConverter.fitCircleLeastSquares (algebraic power-sum
solve of the 2x2 system; none when the system is near-singular). -/
noncomputable def fitCircleLeastSquares (points : List V) : Option (V × ℝ) :=
  if points.length < 3 then none
  else
    let n : ℝ := points.length
    let s := points.foldl
      (fun (s : ℝ × ℝ × ℝ × ℝ × ℝ × ℝ × ℝ × ℝ × ℝ) p =>
        let x := p.x
        let y := p.y
        let xx := x * x
        let yy := y * y
        (s.1 + x, s.2.1 + y, s.2.2.1 + xx, s.2.2.2.1 + yy, s.2.2.2.2.1 + x * y,
         s.2.2.2.2.2.1 + xx * x, s.2.2.2.2.2.2.1 + yy * y,
         s.2.2.2.2.2.2.2.1 + xx * y, s.2.2.2.2.2.2.2.2 + x * yy))
      (0, 0, 0, 0, 0, 0, 0, 0, 0)
    let sumX := s.1
    let sumY := s.2.1
    let sumXX := s.2.2.1
    let sumYY := s.2.2.2.1
    let sumXY := s.2.2.2.2.1
    let sumXXX := s.2.2.2.2.2.1
    let sumYYY := s.2.2.2.2.2.2.1
    let sumXXY := s.2.2.2.2.2.2.2.1
    let sumXYY := s.2.2.2.2.2.2.2.2
    let A := n * sumXX - sumX * sumX
    let B := n * sumXY - sumX * sumY
    let C := n * sumYY - sumY * sumY
    let D := 0.5 * (n * sumXXY - sumX * sumXY + n * sumYYY - sumY * sumYY)
    let E := 0.5 * (n * sumXXX - sumX * sumXX + n * sumXYY - sumY * sumXY)
    let denominator := A * C - B * B
    if |denominator| < 1e-10 then none
    else
      let center : V := ⟨(D * C - B * E) / denominator, (A * E - B * D) / denominator⟩
      let sumRadiusSquared :=
        points.foldl (fun acc p => acc + Vec2.distanceToSquared p center) 0
      some (center, Real.sqrt (sumRadiusSquared / n))

/-- StrokeToGeometryConverter.fitCircle. -/
noncomputable def fitCircle (options : ConversionOptions) (points : List V) :
    Option GeometryFitResult :=
  if points.length < 5 then none
  else
    let startPoint := points.headD Vec2.zero
    let endPoint := points.getLastD Vec2.zero
    let closureDistance := Vec2.distanceTo startPoint endPoint
    let averageSpacing := calculateAverageSpacing points
    if averageSpacing * 3 < closureDistance then none
    else
      match fitCircleLeastSquares points with
      | none => none
      | some (center, radius) =>
        let segment := ArcSegment.make center radius 0 (Real.pi * 2)
        let error := calculateCircleError points center radius
        let confidence :=
          if options.circleThreshold < error then
            max 0 (1 - (error - options.circleThreshold) / options.circleThreshold)
          else 1
        let closureQuality := 1 - min 1 (closureDistance / (averageSpacing * 3))
        let radiusConsistency := calculateRadiusConsistency points center radius
        some { segment := .arc segment, type := .CIRCLE,
               confidence := confidence * (closureQuality * radiusConsistency),
               error := error, points := points,
               metadata := { method := "least_squares_circle",
                             parameters := [("radius", radius),
                               ("closureQuality", closureQuality),
                               ("radiusConsistency", radiusConsistency)] } }

/-- StrokeToGeometryConverter.calculateFitScore complexity bonus
(line > arc > circle > spline > unknown). -/
noncomputable def complexityBonus : GeometryType → ℝ
  | .LINE => 0.1
  | .ARC => 0.05
  | .CIRCLE => 0
  | .SPLINE => -0.05
  | .UNKNOWN => -0.1

/-- StrokeToGeometryConverter.calculateFitScore (confidence plus the
complexity bonus minus the capped error penalty, clipped to [0, 1]). -/
noncomputable def calculateFitScore (result : GeometryFitResult) : ℝ :=
  max 0 (min 1 (result.confidence + complexityBonus result.type -
    min 0.2 (result.error / 10)))

/-- StrokeToGeometryConverter.selectBestFit (first candidate of maximal
score; the source indexes results[0] and so requires a non-empty list). -/
noncomputable def selectBestFit (results : List GeometryFitResult) :
    Option GeometryFitResult :=
  match results with
  | [] => none
  | r0 :: rest =>
    some (rest.foldl
      (fun bestResult result =>
        if calculateFitScore bestResult < calculateFitScore result then result
        else bestResult)
      r0)

/-- StrokeToGeometryConverter.fitSegment (line, optional circle, arc; the
best-scoring candidate of the produced fits). -/
noncomputable def fitSegment (options : ConversionOptions) (points : List V) :
    Option GeometryFitResult :=
  if points.length < 2 then none
  else if isSegmentTooShort options points then none
  else
    let lineFits :=
      match fitLine options points with
      | some f => [f]
      | none => []
    let circleFits :=
      if options.enableCircleDetection ∧ 5 ≤ points.length then
        match fitCircle options points with
        | some f => [f]
        | none => []
      else []
    let arcFits :=
      if 3 ≤ points.length then
        match fitArc options points with
        | some f => [f]
        | none => []
      else []
    let fittingResults := lineFits ++ circleFits ++ arcFits
    match fittingResults with
    | [] => none
    | _ => selectBestFit fittingResults

end StrokeToGeometry

end Zotebook

namespace Zotebook

open TouchState GestureRecognizer StrokeProcessor CornerDetector Geometry StrokeToGeometry

open Vec2 (V)

open PointerEvents (PointerState)

/-- C6: StrokeProcessor.addPoint and StrokeProcessor.endStroke raise an
error synchronously when no stroke is active; the violation is reported,
never silently swallowed. -/
theorem stroke_precondition_violation (s : StrokeProcessor.State)
    (point : StrokePoint) (endTime : ℝ) (h : s.activeStroke = none) :
    StrokeProcessor.addPoint s point =
      .error "No active stroke. Call startStroke() first." ∧
    StrokeProcessor.endStroke s endTime = .error "No active stroke to end." := by
  constructor
  · simp [StrokeProcessor.addPoint, h]
  · simp [StrokeProcessor.endStroke, h]

/-- C6 witness: a freshly constructed processor rejects both calls. -/
theorem stroke_precondition_violation_witness :
    StrokeProcessor.addPoint
        (StrokeProcessor.State.mk0 ⟨2, 0.3, 0.5, 3, 0.5, true, 2000⟩)
        StrokePoint.dummy =
      .error "No active stroke. Call startStroke() first." ∧
    StrokeProcessor.endStroke
        (StrokeProcessor.State.mk0 ⟨2, 0.3, 0.5, 3, 0.5, true, 2000⟩) 0 =
      .error "No active stroke to end." :=
  stroke_precondition_violation _ StrokePoint.dummy 0 rfl

/-- C7: once the active stroke has reached the configured
maxPointsPerStroke cap, StrokeProcessor.addPoint drops the sample without
throwing: it returns successfully with the state (hence the stored point
list) unchanged, the stroke stays active, and endStroke still succeeds. -/
theorem stroke_point_cap_drop (s : StrokeProcessor.State)
    (a : StrokeProcessor.ActiveStroke) (point : StrokePoint)
    (h : s.activeStroke = some a)
    (hcap : s.options.maxPointsPerStroke ≤ a.points.length) :
    StrokeProcessor.addPoint s point = .ok s ∧
    StrokeProcessor.isCapturing s = true ∧
    StrokeProcessor.activeStrokePoints s = a.points ∧
    ∀ endTime, ∃ processed s2,
      StrokeProcessor.endStroke s endTime = .ok (processed, s2) := by
  refine ⟨?_, ?_, ?_, ?_⟩
  · simp [StrokeProcessor.addPoint, h, hcap]
  · simp [StrokeProcessor.isCapturing, h]
  · simp [StrokeProcessor.activeStrokePoints, h]
  · intro endTime
    have he : StrokeProcessor.endStroke s endTime =
        .ok (StrokeProcessor.processStroke s.options
               (StrokeProcessor.createRawStroke a endTime),
             { s with pointPool := StrokeProcessor.recyclePoints s.pointPool a.points,
                      activeStroke := none }) := by
      simp [StrokeProcessor.endStroke, h]
    exact ⟨_, _, he⟩

/-- C7 witness: a capped one-point stroke drops the next sample and can
still be ended. -/
theorem stroke_point_cap_drop_witness :
    StrokeProcessor.addPoint
        { options := ⟨2, 0.3, 0.5, 3, 0.5, true, 1⟩,
          activeStroke := some ⟨"stroke_1_0", [StrokePoint.dummy], 0, 0⟩,
          pointPool := [], strokeIdCounter := 1 }
        StrokePoint.dummy =
      .ok { options := ⟨2, 0.3, 0.5, 3, 0.5, true, 1⟩,
            activeStroke := some ⟨"stroke_1_0", [StrokePoint.dummy], 0, 0⟩,
            pointPool := [], strokeIdCounter := 1 } ∧
    ∃ processed s2,
      StrokeProcessor.endStroke
          { options := ⟨2, 0.3, 0.5, 3, 0.5, true, 1⟩,
            activeStroke := some ⟨"stroke_1_0", [StrokePoint.dummy], 0, 0⟩,
            pointPool := [], strokeIdCounter := 1 } 7 =
        .ok (processed, s2) := by
  have h := stroke_point_cap_drop
    { options := ⟨2, 0.3, 0.5, 3, 0.5, true, 1⟩,
      activeStroke := some ⟨"stroke_1_0", [StrokePoint.dummy], 0, 0⟩,
      pointPool := [], strokeIdCounter := 1 }
    ⟨"stroke_1_0", [StrokePoint.dummy], 0, 0⟩ StrokePoint.dummy rfl
    (by decide)
  exact ⟨h.1, h.2.2.2 7⟩

/-- C10: StrokeProcessor.cancelStroke never throws (it is total): with no
active stroke it is a no-op, and in every case it leaves isCapturing
false and activeStrokePoints empty. -/
theorem cancel_stroke_total (s : StrokeProcessor.State) :
    StrokeProcessor.isCapturing (StrokeProcessor.cancelStroke s) = false ∧
    StrokeProcessor.activeStrokePoints (StrokeProcessor.cancelStroke s) = [] ∧
    (s.activeStroke = none → StrokeProcessor.cancelStroke s = s) := by
  refine ⟨?_, ?_, ?_⟩ <;>
    cases h : s.activeStroke <;>
      simp [StrokeProcessor.cancelStroke, StrokeProcessor.isCapturing,
        StrokeProcessor.activeStrokePoints, h]

/-- Extensionality for embedded 2D vectors. -/
theorem V_ext {a b : V} (hx : a.x = b.x) (hy : a.y = b.y) : a = b := by
  cases a; cases b; cases hx; cases hy; rfl

/-- A point is at distance zero from itself. -/
theorem distanceTo_self (p : V) : Vec2.distanceTo p p = 0 := by
  simp [Vec2.distanceTo, Vec2.subtract, Vec2.length, Vec2.lengthSquared]

/-- The dot product of a vector with itself is its squared length. -/
theorem dot_self (v : V) : Vec2.dot v v = Vec2.lengthSquared v := rfl

/-- A segment is at distance zero from its own start point. -/
theorem distanceToPoint_start (p q : V) :
    LineSegment.distanceToPoint ⟨p, q⟩ p = 0 := by
  unfold LineSegment.distanceToPoint LineSegment.closestPointTo
  by_cases h : Vec2.lengthSquared (Vec2.subtract q p) = 0
  · simp [h, distanceTo_self]
  · have ht : Vec2.dot (Vec2.subtract p p) (Vec2.subtract q p) /
        Vec2.lengthSquared (Vec2.subtract q p) = 0 := by
      simp [Vec2.dot, Vec2.subtract]
    have hc : clampParameter 0 = 0 := by
      unfold clampParameter; norm_num
    have hp : LineSegment.pointAt ⟨p, q⟩ 0 = p := by
      unfold LineSegment.pointAt
      exact V_ext (by simp [Vec2.lerp]) (by simp [Vec2.lerp])
    simp [h, ht, hc, hp, distanceTo_self]

/-- A segment is at distance zero from its own end point. -/
theorem distanceToPoint_end (p q : V) :
    LineSegment.distanceToPoint ⟨p, q⟩ q = 0 := by
  unfold LineSegment.distanceToPoint LineSegment.closestPointTo
  by_cases h : Vec2.lengthSquared (Vec2.subtract q p) = 0
  · have hq : Vec2.distanceTo q p = 0 := by
      have hx : (Vec2.subtract q p).x * (Vec2.subtract q p).x +
          (Vec2.subtract q p).y * (Vec2.subtract q p).y = 0 := h
      have h1 : (Vec2.subtract q p).x = 0 ∧ (Vec2.subtract q p).y = 0 := by
        constructor <;> nlinarith [sq_nonneg (Vec2.subtract q p).x, sq_nonneg (Vec2.subtract q p).y]
      unfold Vec2.distanceTo Vec2.length
      rw [show Vec2.lengthSquared (Vec2.subtract q p) = 0 from h]
      exact Real.sqrt_zero
    simp [h, hq]
  · have ht : Vec2.dot (Vec2.subtract q p) (Vec2.subtract q p) /
        Vec2.lengthSquared (Vec2.subtract q p) = 1 := by
      rw [dot_self]; exact div_self h
    have hc : clampParameter 1 = 1 := by
      unfold clampParameter; norm_num
    have hp : LineSegment.pointAt ⟨p, q⟩ 1 = q := by
      unfold LineSegment.pointAt
      exact V_ext (by simp [Vec2.lerp]) (by simp [Vec2.lerp])
    simp [h, ht, hc, hp, distanceTo_self]

/-- The RMS line error of a two-point run against its own chord is zero. -/
theorem calculateLineError_two_point (p q : V) :
    calculateLineError [p, q] ⟨p, q⟩ = 0 := by
  unfold calculateLineError
  simp [distanceToPoint_start, distanceToPoint_end]

/-- C5 (amended): every two-point run whose endpoints are at least the
configured minimum segment length apart is fitted by the converter as a
line whose endpoints are the two points and whose RMS error is zero.
(Two-point runs shorter than minSegmentLength are rejected by
isSegmentTooShort and produce no fit at all — see the counterexample.) -/
theorem two_point_line_fit (options : ConversionOptions) (p q : V)
    (h : ¬ (Vec2.distanceTo p q < options.minSegmentLength)) :
    ∃ r, fitSegment options [p, q] = some r ∧ r.type = GeometryType.LINE ∧
      r.segment = Segment.line ⟨p, q⟩ ∧ r.error = 0 := by
  have hshort : ¬ isSegmentTooShort options [p, q] := by
    unfold isSegmentTooShort
    simpa using h
  have hline : fitLine options [p, q] =
      some { segment := .line ⟨p, q⟩, type := .LINE,
             confidence :=
               (if options.lineThreshold < calculateLineError [p, q] ⟨p, q⟩ then
                  max 0 (1 - (calculateLineError [p, q] ⟨p, q⟩ - options.lineThreshold) /
                    options.lineThreshold)
                else 1) * calculateLinearity [p, q],
             error := calculateLineError [p, q] ⟨p, q⟩, points := [p, q],
             metadata := { method := "least_squares_endpoints",
                           parameters := [("linearity", calculateLinearity [p, q])] } } := by
    unfold fitLine
    rw [if_neg (by norm_num)]
    simp [List.getLastD]
  have hfit : fitSegment options [p, q] =
      some { segment := .line ⟨p, q⟩, type := .LINE,
             confidence :=
               (if options.lineThreshold < calculateLineError [p, q] ⟨p, q⟩ then
                  max 0 (1 - (calculateLineError [p, q] ⟨p, q⟩ - options.lineThreshold) /
                    options.lineThreshold)
                else 1) * calculateLinearity [p, q],
             error := calculateLineError [p, q] ⟨p, q⟩, points := [p, q],
             metadata := { method := "least_squares_endpoints",
                           parameters := [("linearity", calculateLinearity [p, q])] } } := by
    unfold fitSegment
    rw [if_neg (by norm_num), if_neg hshort, hline]
    simp [selectBestFit]
  exact ⟨_, hfit, rfl, rfl, calculateLineError_two_point p q⟩

/-- C5 counterexample: the claim as stated fails — a two-point run closer
than the minimum segment length (here (0,0)-(1,0) under the default
options) is not fitted as a line at all: fitSegment returns no candidate. -/
theorem two_point_line_fit_counterexample :
    fitSegment DEFAULT_CONVERSION_OPTIONS [⟨0, 0⟩, ⟨1, 0⟩] = none := by
  unfold fitSegment
  rw [if_neg (by norm_num), if_pos]
  have hd : Vec2.distanceTo (⟨0, 0⟩ : V) (⟨1, 0⟩ : V) = 1 := by
    unfold Vec2.distanceTo Vec2.length Vec2.lengthSquared Vec2.subtract
    norm_num
  norm_num [isSegmentTooShort, hd, DEFAULT_CONVERSION_OPTIONS, List.getLastD]

/-- C5 witness: a 30-pixel-long two-point run under the default options is
fitted as an error-free line with the run's endpoints. -/
theorem two_point_line_fit_witness :
    ∃ r, fitSegment DEFAULT_CONVERSION_OPTIONS [⟨0, 0⟩, ⟨30, 0⟩] = some r ∧
      r.type = GeometryType.LINE ∧
      r.segment = Segment.line ⟨⟨0, 0⟩, ⟨30, 0⟩⟩ ∧ r.error = 0 := by
  apply two_point_line_fit
  have hd : Vec2.distanceTo (⟨0, 0⟩ : V) (⟨30, 0⟩ : V) = 30 := by
    unfold Vec2.distanceTo Vec2.length Vec2.lengthSquared Vec2.subtract
    rw [show ((0 : ℝ) - 30) * ((0 : ℝ) - 30) + (0 - 0) * (0 - 0) = 30 ^ 2 by norm_num]
    exact Real.sqrt_sq (by norm_num)
  rw [hd]
  norm_num [DEFAULT_CONVERSION_OPTIONS]

/-- C4 (amended): for every input with fewer than 3 points,
CornerDetector.detectCorners returns (totally, without failing) no corner
indices, no curvatures and no confidences; with exactly 2 points it
returns exactly one degenerate segment labeled line, and with fewer than
2 points it returns no segments at all. -/
theorem corner_detector_degenerate (options : CornerDetectionOptions)
    (points : List V) (h : points.length < 3) :
    CornerDetector.detectCorners options points =
      { cornerIndices := [], curvatures := [], confidence := [],
        segments :=
          if 2 ≤ points.length then
            [{ startIndex := 0, endIndex := points.length - 1,
               type := SegKind.line, quality := 1 }]
          else [] } := by
  unfold CornerDetector.detectCorners
  rw [if_pos h]

/-- C4 counterexample: the claim as stated fails on inputs with fewer than
2 points — the empty input yields no segments, not one line-labeled run. -/
theorem corner_detector_degenerate_counterexample :
    (CornerDetector.detectCorners DEFAULT_CORNER_OPTIONS ([] : List V)).segments = [] ∧
    ¬ ((CornerDetector.detectCorners DEFAULT_CORNER_OPTIONS ([] : List V)).segments.length = 1) := by
  have h : CornerDetector.detectCorners DEFAULT_CORNER_OPTIONS ([] : List V) =
      { cornerIndices := [], curvatures := [], confidence := [], segments := [] } := by
    unfold CornerDetector.detectCorners
    norm_num
  rw [h]
  simp

/-- C4 witness: a two-point input yields no corners and exactly one
line-labeled degenerate segment. -/
theorem corner_detector_degenerate_witness :
    CornerDetector.detectCorners DEFAULT_CORNER_OPTIONS ([⟨0, 0⟩, ⟨5, 5⟩] : List V) =
      { cornerIndices := [], curvatures := [], confidence := [],
        segments := [{ startIndex := 0, endIndex := 1,
                       type := SegKind.line, quality := 1 }] } := by
  have h := corner_detector_degenerate DEFAULT_CORNER_OPTIONS
    ([⟨0, 0⟩, ⟨5, 5⟩] : List V) (by norm_num)
  simpa using h

/-- The selectBestFit fold keeps a member of the candidates whose score
dominates the initial candidate and every folded candidate. -/
theorem selectBestFit_fold (r0 : GeometryFitResult) (rest : List GeometryFitResult) :
    (rest.foldl
        (fun bestResult result =>
          if calculateFitScore bestResult < calculateFitScore result then result
          else bestResult) r0 = r0 ∨
     rest.foldl
        (fun bestResult result =>
          if calculateFitScore bestResult < calculateFitScore result then result
          else bestResult) r0 ∈ rest) ∧
    calculateFitScore r0 ≤
      calculateFitScore (rest.foldl
        (fun bestResult result =>
          if calculateFitScore bestResult < calculateFitScore result then result
          else bestResult) r0) ∧
    ∀ r ∈ rest, calculateFitScore r ≤
      calculateFitScore (rest.foldl
        (fun bestResult result =>
          if calculateFitScore bestResult < calculateFitScore result then result
          else bestResult) r0) := by
  induction rest generalizing r0 with
  | nil => exact ⟨Or.inl rfl, le_refl _, by simp⟩
  | cons x xs ih =>
    have hstep : calculateFitScore r0 ≤
        calculateFitScore (if calculateFitScore r0 < calculateFitScore x then x else r0) := by
      by_cases hx : calculateFitScore r0 < calculateFitScore x
      · rw [if_pos hx]; exact le_of_lt hx
      · rw [if_neg hx]
    have hstepx : calculateFitScore x ≤
        calculateFitScore (if calculateFitScore r0 < calculateFitScore x then x else r0) := by
      by_cases hx : calculateFitScore r0 < calculateFitScore x
      · rw [if_pos hx]
      · rw [if_neg hx]; exact le_of_not_lt hx
    obtain ⟨hmem, hinit, hall⟩ := ih (if calculateFitScore r0 < calculateFitScore x then x else r0)
    refine ⟨?_, ?_, ?_⟩
    · simp only [List.foldl_cons]
      rcases hmem with h | h
      · rw [h]
        by_cases hx : calculateFitScore r0 < calculateFitScore x
        · rw [if_pos hx]; exact Or.inr (List.mem_cons_self x xs)
        · rw [if_neg hx]; exact Or.inl rfl
      · exact Or.inr (List.mem_cons_of_mem x h)
    · simp only [List.foldl_cons]
      exact le_trans hstep hinit
    · intro r hr
      simp only [List.foldl_cons]
      rcases List.mem_cons.mp hr with h | h
      · rw [h]; exact le_trans hstepx hinit
      · exact hall r h

/-- C3: on every non-empty candidate list, selectBestFit returns a
candidate whose calculateFitScore — the confidence plus the simplicity
bonus (ordered line > arc > circle > unknown) minus the capped error
penalty, clipped to [0, 1] — is maximal among all candidates. -/
theorem best_fit_selection (r0 : GeometryFitResult) (rest : List GeometryFitResult) :
    ∃ b, selectBestFit (r0 :: rest) = some b ∧ b ∈ r0 :: rest ∧
      (∀ r ∈ r0 :: rest, calculateFitScore r ≤ calculateFitScore b) ∧
      (∀ r : GeometryFitResult,
        calculateFitScore r =
          max 0 (min 1 (r.confidence + complexityBonus r.type - min 0.2 (r.error / 10))) ∧
        0 ≤ calculateFitScore r ∧ calculateFitScore r ≤ 1) ∧
      (complexityBonus .ARC < complexityBonus .LINE ∧
       complexityBonus .CIRCLE < complexityBonus .ARC ∧
       complexityBonus .UNKNOWN < complexityBonus .CIRCLE) := by
  obtain ⟨hmem, hinit, hall⟩ := selectBestFit_fold r0 rest
  refine ⟨_, rfl, ?_, ?_, ?_, ?_⟩
  · rcases hmem with h | h
    · rw [h]; exact List.mem_cons_self r0 rest
    · exact List.mem_cons_of_mem r0 h
  · intro r hr
    rcases List.mem_cons.mp hr with h | h
    · rw [h]; exact hinit
    · exact hall r h
  · intro r
    refine ⟨rfl, le_max_left 0 _, ?_⟩
    exact max_le (by norm_num) (min_le_left 1 _)
  · refine ⟨?_, ?_, ?_⟩ <;> norm_num [complexityBonus]

/-- C3 witness: the selection theorem applied to a concrete two-candidate
list. -/
theorem best_fit_selection_witness :
    ∃ b, selectBestFit
        [{ segment := Segment.line ⟨⟨0, 0⟩, ⟨30, 0⟩⟩, type := GeometryType.LINE,
           confidence := 1, error := 0, points := [],
           metadata := { method := "least_squares_endpoints", parameters := [] } },
         { segment := Segment.line ⟨⟨0, 0⟩, ⟨30, 0⟩⟩, type := GeometryType.ARC,
           confidence := 0.5, error := 2, points := [],
           metadata := { method := "three_point_fit", parameters := [] } }] = some b ∧
      (∀ r ∈
        [{ segment := Segment.line ⟨⟨0, 0⟩, ⟨30, 0⟩⟩, type := GeometryType.LINE,
           confidence := 1, error := 0, points := [],
           metadata := { method := "least_squares_endpoints", parameters := [] } },
         { segment := Segment.line ⟨⟨0, 0⟩, ⟨30, 0⟩⟩, type := GeometryType.ARC,
           confidence := 0.5, error := 2, points := [],
           metadata := { method := "three_point_fit", parameters := [] } }],
        calculateFitScore r ≤ calculateFitScore b) := by
  obtain ⟨b, hsel, _, hmax, _, _⟩ := best_fit_selection
    { segment := Segment.line ⟨⟨0, 0⟩, ⟨30, 0⟩⟩, type := GeometryType.LINE,
      confidence := 1, error := 0, points := [],
      metadata := { method := "least_squares_endpoints", parameters := [] } }
    [{ segment := Segment.line ⟨⟨0, 0⟩, ⟨30, 0⟩⟩, type := GeometryType.ARC,
       confidence := 0.5, error := 2, points := [],
       metadata := { method := "three_point_fit", parameters := [] } }]
  exact ⟨b, hsel, hmax⟩

/-- Updating an existing key of the JS-Map model keeps its size. -/
theorem mapSet_length_of_mem (m : List (ℕ × PointerState)) (k : ℕ)
    (v w : PointerState) (h : mapGet m k = some w) :
    (mapSet m k v).length = m.length := by
  induction m with
  | nil => simp [mapGet] at h
  | cons kv rest ih =>
    obtain ⟨k', v'⟩ := kv
    by_cases hk : k = k'
    · simp [mapSet, hk]
    · simp only [mapGet, if_neg hk] at h
      simp [mapSet, hk, ih h]

/-- determineTouchMode depends only on the pointer count. -/
theorem determineTouchMode_congr (s t : Manager)
    (h : s.activePointers.length = t.activePointers.length) :
    determineTouchMode s = determineTouchMode t := by
  unfold determineTouchMode
  rw [h]

/-- endCurrentGesture leaves the mode unchanged. -/
theorem endCurrentGesture_mode (s : Manager) :
    (endCurrentGesture s).1.currentMode = s.currentMode := by
  cases h : s.currentGesture <;> simp [endCurrentGesture, h]

/-- endCurrentGesture leaves the pointer map unchanged. -/
theorem endCurrentGesture_map (s : Manager) :
    (endCurrentGesture s).1.activePointers = s.activePointers := by
  cases h : s.currentGesture <;> simp [endCurrentGesture, h]

/-- cancelCurrentGesture leaves the mode unchanged. -/
theorem cancelCurrentGesture_mode (s : Manager) :
    (cancelCurrentGesture s).1.currentMode = s.currentMode := by
  cases h : s.currentGesture <;> simp [cancelCurrentGesture, h]

/-- cancelCurrentGesture leaves the pointer map unchanged. -/
theorem cancelCurrentGesture_map (s : Manager) :
    (cancelCurrentGesture s).1.activePointers = s.activePointers := by
  cases h : s.currentGesture <;> simp [cancelCurrentGesture, h]

/-- updateCurrentGesture leaves the mode unchanged. -/
theorem updateCurrentGesture_mode (p : PointerState) (s : Manager) :
    (updateCurrentGesture p s).1.currentMode = s.currentMode := by
  cases h : s.currentGesture <;> simp [updateCurrentGesture, h]

/-- updateCurrentGesture leaves the pointer map unchanged. -/
theorem updateCurrentGesture_map (p : PointerState) (s : Manager) :
    (updateCurrentGesture p s).1.activePointers = s.activePointers := by
  cases h : s.currentGesture <;> simp [updateCurrentGesture, h]

/-- startGesture leaves the mode unchanged. -/
theorem startGesture_mode (m : TouchMode) (p : PointerState) (s : Manager) :
    (startGesture m p s).1.currentMode = s.currentMode := by
  simp [startGesture]

/-- startGesture leaves the pointer map unchanged. -/
theorem startGesture_map (m : TouchMode) (p : PointerState) (s : Manager) :
    (startGesture m p s).1.activePointers = s.activePointers := by
  simp [startGesture]

/-- transitionToMode installs exactly the requested mode. -/
theorem transitionToMode_mode (nm : TouchMode) (p : PointerState) (s : Manager) :
    (transitionToMode nm p s).1.currentMode = nm := by
  unfold transitionToMode
  split_ifs <;> simp [startGesture_mode]

/-- transitionToMode leaves the pointer map unchanged. -/
theorem transitionToMode_map (nm : TouchMode) (p : PointerState) (s : Manager) :
    (transitionToMode nm p s).1.activePointers = s.activePointers := by
  unfold transitionToMode
  by_cases h1 : s.currentGesture.isSome = true ∧ nm ≠ s.currentMode <;>
    by_cases h2 : nm ≠ TouchMode.IDLE <;>
      simp [h1, h2, startGesture_map, endCurrentGesture_map]

/-- One dispatched pointer event preserves the mode-is-count invariant. -/
theorem step_preserves_purity (s : Manager) (e : Event)
    (h : s.currentMode = determineTouchMode s) :
    (step s e).1.currentMode = determineTouchMode (step s e).1 := by
  cases e with
  | down p =>
    show (handlePointerDown p s).1.currentMode = determineTouchMode (handlePointerDown p s).1
    unfold handlePointerDown
    dsimp only
    split_ifs with hm
    · rw [transitionToMode_mode]
      exact determineTouchMode_congr _ _ (by rw [transitionToMode_map])
    · rw [updateCurrentGesture_mode]
      rw [not_not] at hm
      refine Eq.trans hm.symm ?_
      exact determineTouchMode_congr _ _ (by rw [updateCurrentGesture_map])
  | move p =>
    show (handlePointerMove p s).1.currentMode = determineTouchMode (handlePointerMove p s).1
    unfold handlePointerMove
    cases hg : mapGet s.activePointers p.id with
    | none => exact h
    | some w =>
      dsimp only
      rw [updateCurrentGesture_mode]
      refine Eq.trans h ?_
      refine determineTouchMode_congr _ _ ?_
      rw [updateCurrentGesture_map]
      exact (mapSet_length_of_mem _ _ _ _ hg).symm
  | up p =>
    show (handlePointerUp p s).1.currentMode = determineTouchMode (handlePointerUp p s).1
    unfold handlePointerUp
    dsimp only
    split_ifs with hm
    · rw [transitionToMode_mode]
      refine determineTouchMode_congr _ _ ?_
      rw [transitionToMode_map, endCurrentGesture_map]
    · rw [updateCurrentGesture_mode]
      rw [not_not] at hm
      refine Eq.trans hm.symm ?_
      exact determineTouchMode_congr _ _ (by rw [updateCurrentGesture_map])
  | cancel p =>
    show (handlePointerCancel p s).1.currentMode = determineTouchMode (handlePointerCancel p s).1
    unfold handlePointerCancel
    dsimp only
    rw [transitionToMode_mode]
    exact determineTouchMode_congr _ _ (by rw [transitionToMode_map])

/-- The mode-is-count invariant holds along any run. -/
theorem run_purity (events : List Event) (s : Manager)
    (h : s.currentMode = determineTouchMode s) :
    (run s events).currentMode = determineTouchMode (run s events) := by
  induction events generalizing s with
  | nil => exact h
  | cons e es ih =>
    show (run (step s e).1 es).currentMode = determineTouchMode (run (step s e).1 es)
    exact ih _ (step_preserves_purity s e h)

/-- C1: in every reachable TouchStateManager state — any event sequence
from the initial state, regardless of the order of intermediate move
events — the Touch Mode is the pure function determineTouchMode of the
active-pointer count: 0 is idle, 1 drawing, 2 pan-zoom, 3 undo, and more
than 3 the ambiguous multi-touch mode. -/
theorem touch_mode_purity (events : List Event) :
    (run Manager.init events).currentMode = determineTouchMode (run Manager.init events) ∧
    (run Manager.init events).currentMode =
      (match (run Manager.init events).activePointers.length with
       | 0 => TouchMode.IDLE
       | 1 => TouchMode.DRAWING
       | 2 => TouchMode.PAN_ZOOM
       | 3 => TouchMode.UNDO
       | _ => TouchMode.MULTI_TOUCH) := by
  have h := run_purity events Manager.init rfl
  exact ⟨h, h⟩

/-- countModeChanged distributes over concatenation. -/
theorem countModeChanged_append (a b : List Notification) :
    countModeChanged (a ++ b) = countModeChanged a + countModeChanged b := by
  simp [countModeChanged, List.filter_append]

/-- endCurrentGesture emits no mode-change notification. -/
theorem endCurrentGesture_count (s : Manager) :
    countModeChanged (endCurrentGesture s).2 = 0 := by
  cases h : s.currentGesture <;>
    simp [endCurrentGesture, h, countModeChanged, Notification.isModeChanged]

/-- cancelCurrentGesture emits no mode-change notification. -/
theorem cancelCurrentGesture_count (s : Manager) :
    countModeChanged (cancelCurrentGesture s).2 = 0 := by
  cases h : s.currentGesture <;>
    simp [cancelCurrentGesture, h, countModeChanged, Notification.isModeChanged]

/-- updateCurrentGesture emits no mode-change notification. -/
theorem updateCurrentGesture_count (p : PointerState) (s : Manager) :
    countModeChanged (updateCurrentGesture p s).2 = 0 := by
  cases h : s.currentGesture <;>
    simp [updateCurrentGesture, h, countModeChanged, Notification.isModeChanged]

/-- startGesture emits no mode-change notification. -/
theorem startGesture_count (m : TouchMode) (p : PointerState) (s : Manager) :
    countModeChanged (startGesture m p s).2 = 0 := by
  simp [startGesture, countModeChanged, Notification.isModeChanged]

/-- countModeChanged of an empty batch. -/
theorem countModeChanged_nil : countModeChanged [] = 0 := rfl

/-- countModeChanged of a single mode-change notification. -/
theorem countModeChanged_single (a b : TouchMode) :
    countModeChanged [Notification.touchModeChanged a b] = 1 := rfl

/-- transitionToMode emits exactly one mode-change notification. -/
theorem transitionToMode_count (nm : TouchMode) (p : PointerState) (s : Manager) :
    countModeChanged (transitionToMode nm p s).2 = 1 := by
  unfold transitionToMode
  dsimp only
  by_cases h1 : s.currentGesture.isSome = true ∧ ¬ nm = s.currentMode <;>
    by_cases h2 : nm ≠ TouchMode.IDLE <;>
      simp [h1, h2, countModeChanged_append, endCurrentGesture_count,
        startGesture_count, countModeChanged_nil, countModeChanged_single]

/-- C9: a pointer event that causes a mode transition fires exactly one
mode-change notification, and a move event on an untracked pointer id
fires no notification and leaves the manager state (mode, pointer map,
live gesture) unchanged. -/
theorem transition_notification (s : Manager) (e : Event) :
    ((step s e).1.currentMode ≠ s.currentMode → countModeChanged (step s e).2 = 1) ∧
    (∀ p, e = Event.move p → mapGet s.activePointers p.id = none →
      step s e = (s, [])) := by
  constructor
  · intro hne
    cases e with
    | down p =>
      rw [show step s (Event.down p) = handlePointerDown p s from rfl] at hne ⊢
      unfold handlePointerDown at hne ⊢
      dsimp only at hne ⊢
      split_ifs at hne ⊢ with hm
      · exact transitionToMode_count _ _ _
      · exact absurd (updateCurrentGesture_mode p _) hne
    | move p =>
      rw [show step s (Event.move p) = handlePointerMove p s from rfl] at hne ⊢
      unfold handlePointerMove at hne ⊢
      cases hg : mapGet s.activePointers p.id with
      | none => rw [hg] at hne; exact absurd rfl hne
      | some w =>
        rw [hg] at hne
        exact absurd (updateCurrentGesture_mode p _) hne
    | up p =>
      rw [show step s (Event.up p) = handlePointerUp p s from rfl] at hne ⊢
      unfold handlePointerUp at hne ⊢
      dsimp only at hne ⊢
      split_ifs at hne ⊢ with hm
      · rw [countModeChanged_append, endCurrentGesture_count, transitionToMode_count]
      · exact absurd (updateCurrentGesture_mode p _) hne
    | cancel p =>
      rw [show step s (Event.cancel p) = handlePointerCancel p s from rfl]
      unfold handlePointerCancel
      dsimp only
      rw [countModeChanged_append, cancelCurrentGesture_count, transitionToMode_count]
  · intro p hep hg
    subst hep
    show handlePointerMove p s = (s, [])
    unfold handlePointerMove
    rw [hg]

/-- C9 witness: the notification theorem applied to a concrete transition
(first pointer down: idle to drawing) and to a concrete untracked move. -/
theorem transition_notification_witness :
    countModeChanged (step Manager.init
      (Event.down ⟨1, ⟨0, 0⟩, 0, 0, 0, 5, true⟩)).2 = 1 ∧
    step Manager.init (Event.move ⟨1, ⟨0, 0⟩, 0, 0, 0, 5, true⟩) =
      (Manager.init, []) := by
  constructor
  · refine (transition_notification Manager.init _).1 ?_
    show (handlePointerDown _ Manager.init).1.currentMode ≠ Manager.init.currentMode
    unfold handlePointerDown
    rw [if_pos]
    · rw [transitionToMode_mode]
      simp [Manager.init, mapSet, determineTouchMode]
    · simp [Manager.init, mapSet, determineTouchMode]
  · exact (transition_notification Manager.init _).2 _ rfl (by simp [Manager.init, mapGet])

/-- One recognizeUndo evaluation from an armed undo tracker (non-zero
start time, recorded hold requirement). -/
theorem recognizeUndo_tracking (options : GestureRecognitionOptions)
    (pointers : List PointerState) (t t0 T : ℝ) (c : Bool)
    (h3 : 3 ≤ pointers.length) (ht0 : t0 ≠ 0) :
    recognizeUndo options ⟨some t0, some T, c⟩ pointers t =
      ((if T ≤ t - t0 then ⟨some t0, some T, true⟩ else ⟨some t0, some T, c⟩),
       some { type := .UNDO,
              phase :=
                if T ≤ t - t0 then
                  (if c then GesturePhase.ENDED else GesturePhase.CHANGED)
                else GesturePhase.BEGAN,
              timestamp := t, duration := t - t0, pointers := pointers,
              centroid := PointerEvents.calculateCentroid pointers,
              confidence := min 1 ((t - t0) / T),
              data := { undo := some { holdDuration := t - t0,
                                       confirmationProgress := min 1 ((t - t0) / T) } } }) := by
  unfold recognizeUndo
  rw [if_neg (by omega)]
  dsimp only
  rw [if_neg (by simp [ht0])]
  dsimp only [Option.getD]

/-- After any evaluation sequence, an armed undo tracker stays armed, and
it is confirmed exactly when some evaluation time passed the hold. -/
theorem undoStateAfter_tracking (options : GestureRecognitionOptions)
    (pointers : List PointerState) (t0 T : ℝ) (c : Bool) (ts : List ℝ)
    (h3 : 3 ≤ pointers.length) (ht0 : t0 ≠ 0) :
    undoStateAfter options pointers ⟨some t0, some T, c⟩ ts =
      ⟨some t0, some T, c || ts.any (fun u => decide (T ≤ u - t0))⟩ := by
  induction ts generalizing c with
  | nil => simp [undoStateAfter]
  | cons u us ih =>
    show undoStateAfter options pointers
        (recognizeUndo options ⟨some t0, some T, c⟩ pointers u).1 us = _
    rw [recognizeUndo_tracking options pointers u t0 T c h3 ht0]
    by_cases hu : T ≤ u - t0
    · rw [if_pos hu, ih true]
      simp [hu]
    · rw [if_neg hu, ih c]
      simp [hu]

/-- C8: with at least 3 pointers held continuously, the first evaluation
arms the hold timer at its time t0; every later evaluation before the
hold duration elapses reports phase began with confirmation progress
holdDuration/requiredHoldTime, strictly below 1; the first evaluation at
or past the hold reports progress 1 and confirms; and every subsequent
evaluation past the hold reaches phase ended with confirmation 1. -/
theorem undo_hold_progress (options : GestureRecognitionOptions)
    (pointers : List PointerState) (t0 t : ℝ) (pre : List ℝ)
    (h3 : 3 ≤ pointers.length) (ht0 : t0 ≠ 0)
    (hT : 0 < options.undoHoldTime) :
    recognizeUndo options UndoState.empty pointers t0 =
      ({ startTime := some t0, requiredHoldTime := some options.undoHoldTime,
         isConfirmed := false }, none) ∧
    (0 ≤ t - t0 → t - t0 < options.undoHoldTime →
      ∃ g, (recognizeUndo options
              (undoStateAfter options pointers
                ⟨some t0, some options.undoHoldTime, false⟩ pre)
              pointers t).2 = some g ∧
        g.phase = GesturePhase.BEGAN ∧
        g.confidence = (t - t0) / options.undoHoldTime ∧
        g.confidence < 1 ∧
        g.data.undo = some { holdDuration := t - t0,
                             confirmationProgress := (t - t0) / options.undoHoldTime }) ∧
    (options.undoHoldTime ≤ t - t0 →
      (∃ u ∈ pre, options.undoHoldTime ≤ u - t0) →
      ∃ g, (recognizeUndo options
              (undoStateAfter options pointers
                ⟨some t0, some options.undoHoldTime, false⟩ pre)
              pointers t).2 = some g ∧
        g.phase = GesturePhase.ENDED ∧ g.confidence = 1 ∧
        g.data.undo = some { holdDuration := t - t0, confirmationProgress := 1 }) ∧
    (options.undoHoldTime ≤ t - t0 →
      (¬ ∃ u ∈ pre, options.undoHoldTime ≤ u - t0) →
      ∃ g, (recognizeUndo options
              (undoStateAfter options pointers
                ⟨some t0, some options.undoHoldTime, false⟩ pre)
              pointers t).2 = some g ∧
        g.phase = GesturePhase.CHANGED ∧ g.confidence = 1 ∧
        (recognizeUndo options
           (undoStateAfter options pointers
             ⟨some t0, some options.undoHoldTime, false⟩ pre)
           pointers t).1.isConfirmed = true) := by
  have hstate := undoStateAfter_tracking options pointers t0 options.undoHoldTime
    false pre h3 ht0
  refine ⟨?_, ?_, ?_, ?_⟩
  · unfold recognizeUndo
    rw [if_neg (by omega)]
    simp [UndoState.empty]
  · intro hge hlt
    rw [hstate, recognizeUndo_tracking options pointers t t0 options.undoHoldTime
      _ h3 ht0]
    have hdiv : (t - t0) / options.undoHoldTime < 1 := by
      rw [div_lt_one hT]; exact hlt
    have hmin : min 1 ((t - t0) / options.undoHoldTime) =
        (t - t0) / options.undoHoldTime := min_eq_right (le_of_lt hdiv)
    refine ⟨_, rfl, ?_, ?_, ?_, ?_⟩
    · rw [if_neg (not_le.mpr hlt)]
    · exact hmin
    · rw [hmin]; exact hdiv
    · rw [hmin]
  · intro hge ⟨u, hu, huT⟩
    have hany : pre.any (fun u => decide (options.undoHoldTime ≤ u - t0)) = true := by
      rw [List.any_eq_true]
      exact ⟨u, hu, by simpa using huT⟩
    rw [hstate, hany] at *
    rw [recognizeUndo_tracking options pointers t t0 options.undoHoldTime
      _ h3 ht0]
    have hmin : min 1 ((t - t0) / options.undoHoldTime) = 1 := by
      refine min_eq_left ?_
      rw [le_div_iff₀ hT]
      linarith
    refine ⟨_, rfl, ?_, ?_, ?_⟩
    · rw [if_pos hge]
      rfl
    · exact hmin
    · rw [hmin]
  · intro hge hnone
    have hany : pre.any (fun u => decide (options.undoHoldTime ≤ u - t0)) = false := by
      rw [← Bool.not_eq_true, List.any_eq_true]
      intro ⟨u, hu, huT⟩
      exact hnone ⟨u, hu, by simpa using huT⟩
    rw [hstate, hany]
    rw [recognizeUndo_tracking options pointers t t0 options.undoHoldTime
      _ h3 ht0]
    have hmin : min 1 ((t - t0) / options.undoHoldTime) = 1 := by
      refine min_eq_left ?_
      rw [le_div_iff₀ hT]
      linarith
    refine ⟨_, rfl, ?_, ?_, ?_⟩
    · rw [if_pos hge]
      rfl
    · exact hmin
    · rw [if_pos hge]

/-- C8 witness: with hold time 800 ms and three pointers armed at t0=100,
an evaluation at 500 reports began at progress 1/2, and after an earlier
past-threshold evaluation at 1000 the evaluation at 1200 is ended with
confirmation 1. -/
theorem undo_hold_progress_witness :
    (∃ g, (recognizeUndo ⟨10, 0.1, 0.2, 300, 20, 500, 800, 100, 50, true⟩
            (undoStateAfter ⟨10, 0.1, 0.2, 300, 20, 500, 800, 100, 50, true⟩
              [⟨1, ⟨0, 0⟩, 0, 0, 0, 0, true⟩, ⟨2, ⟨4, 0⟩, 0, 0, 0, 0, false⟩,
               ⟨3, ⟨0, 4⟩, 0, 0, 0, 0, false⟩]
              ⟨some 100, some 800, false⟩ [])
            [⟨1, ⟨0, 0⟩, 0, 0, 0, 0, true⟩, ⟨2, ⟨4, 0⟩, 0, 0, 0, 0, false⟩,
             ⟨3, ⟨0, 4⟩, 0, 0, 0, 0, false⟩] 500).2 = some g ∧
      g.phase = GesturePhase.BEGAN ∧ g.confidence = (500 - 100) / 800) ∧
    (∃ g, (recognizeUndo ⟨10, 0.1, 0.2, 300, 20, 500, 800, 100, 50, true⟩
            (undoStateAfter ⟨10, 0.1, 0.2, 300, 20, 500, 800, 100, 50, true⟩
              [⟨1, ⟨0, 0⟩, 0, 0, 0, 0, true⟩, ⟨2, ⟨4, 0⟩, 0, 0, 0, 0, false⟩,
               ⟨3, ⟨0, 4⟩, 0, 0, 0, 0, false⟩]
              ⟨some 100, some 800, false⟩ [1000])
            [⟨1, ⟨0, 0⟩, 0, 0, 0, 0, true⟩, ⟨2, ⟨4, 0⟩, 0, 0, 0, 0, false⟩,
             ⟨3, ⟨0, 4⟩, 0, 0, 0, 0, false⟩] 1200).2 = some g ∧
      g.phase = GesturePhase.ENDED ∧ g.confidence = 1) := by
  constructor
  · obtain ⟨-, h2, -, -⟩ := undo_hold_progress
      ⟨10, 0.1, 0.2, 300, 20, 500, 800, 100, 50, true⟩
      [⟨1, ⟨0, 0⟩, 0, 0, 0, 0, true⟩, ⟨2, ⟨4, 0⟩, 0, 0, 0, 0, false⟩,
       ⟨3, ⟨0, 4⟩, 0, 0, 0, 0, false⟩]
      100 500 [] (by norm_num) (by norm_num) (by norm_num)
    obtain ⟨g, hg, hphase, hconf, -, -⟩ := h2 (by norm_num) (by norm_num)
    exact ⟨g, hg, hphase, hconf⟩
  · obtain ⟨-, -, h3, -⟩ := undo_hold_progress
      ⟨10, 0.1, 0.2, 300, 20, 500, 800, 100, 50, true⟩
      [⟨1, ⟨0, 0⟩, 0, 0, 0, 0, true⟩, ⟨2, ⟨4, 0⟩, 0, 0, 0, 0, false⟩,
       ⟨3, ⟨0, 4⟩, 0, 0, 0, 0, false⟩]
      100 1200 [1000] (by norm_num) (by norm_num) (by norm_num)
    obtain ⟨g, hg, hphase, hconf, -⟩ := h3 (by norm_num)
      ⟨1000, by simp, by norm_num⟩
    exact ⟨g, hg, hphase, hconf⟩

/-- C10 witness: cancelStroke on a stroke-free processor is the identity
and leaves no capture in progress. -/
theorem cancel_stroke_total_witness :
    StrokeProcessor.isCapturing
        (StrokeProcessor.cancelStroke
          (StrokeProcessor.State.mk0 ⟨2, 0.3, 0.5, 3, 0.5, true, 2000⟩)) = false ∧
    StrokeProcessor.cancelStroke
        (StrokeProcessor.State.mk0 ⟨2, 0.3, 0.5, 3, 0.5, true, 2000⟩) =
      StrokeProcessor.State.mk0 ⟨2, 0.3, 0.5, 3, 0.5, true, 2000⟩ := by
  have h := cancel_stroke_total (StrokeProcessor.State.mk0 ⟨2, 0.3, 0.5, 3, 0.5, true, 2000⟩)
  exact ⟨h.1, h.2.2 rfl⟩

end Zotebook
